import Mathlib

/-!
# Surround-view stitching pipeline (`SVStitcherSimple`)

A shallow embedding of `src/SVStitcherSimple.cpp`, of the main loop of
`src/SVAppSimple.cpp` and of `src/main.cpp`.

* Floating-point values (`scale_factor`, `focal_length`, matrix entries) are
  rationals, as every floating-point value is. Floating-point products round, so
  the three products the code computes are not the exact product but fields of
  `Library` (`mulInt`, `mulEntry`, `mulRadius`); the conversion of a
  floating-point value to `int` is the exact truncation toward zero.
* Undefined behaviour of the C++ code (indexing a vector out of bounds,
  dereferencing a null `shared_ptr`, `Mat::at` outside the matrix) is the result
  `none`.
* What OpenCV computes is not part of the repository: every OpenCV routine the
  code calls is a field of `Library`, and every theorem holds for all libraries.
  Library routines are taken as total functions of their arguments.
* The camera source, the renderer, the clock and signals are the environment of
  the main loop: their answers are inputs of each pass, and the calls a pass makes
  are recorded as events.
-/

namespace Ethsimple

/-! ## Data model -/

/-- The values of C++ `float` / `double`: each of them is a rational number. -/
abbrev Scalar := Rat

/-- The type `cv::Size`. -/
structure Size where
  width : Int
  height : Int
deriving DecidableEq, Repr

/-- The type `cv::Point`. -/
structure Point where
  x : Int
  y : Int
deriving DecidableEq, Repr

/-- The type `cv::Point2f`. -/
structure Point2f where
  x : Scalar
  y : Scalar
deriving DecidableEq, Repr

/-- The type `cv::Mat`: a buffer of `data` with `rows` and `cols`. -/
structure Mat where
  rows : Nat
  cols : Nat
  data : List Scalar
deriving DecidableEq, Repr

/-- The type `cv::cuda::GpuMat`; `upload` copies a host matrix unchanged. -/
abbrev GpuMat := Mat

/-- A default-constructed `cv::Mat()` / `cv::cuda::GpuMat()`. -/
def Mat.new : Mat := ⟨0, 0, []⟩

instance : Inhabited Mat := ⟨Mat.new⟩

/-- The method `empty()`: the matrix has no buffer. -/
def Mat.empty (m : Mat) : Bool := m.data.isEmpty

/-- The method `size()`, which is `Size(cols, rows)`. -/
def Mat.size (m : Mat) : Size := ⟨(m.cols : Int), (m.rows : Int)⟩

/-- A matrix of the given size with `channels` values per pixel, all equal to `v`:
`cv::Mat::zeros(size, type)` for `v = 0`, `cv::Mat(size, type, Scalar(v))` otherwise. -/
def Mat.filled (sz : Size) (channels : Nat) (v : Scalar) : Mat :=
  ⟨sz.height.toNat, sz.width.toNat,
    List.replicate (sz.height.toNat * sz.width.toNat * channels) v⟩

/-- The statement `m.at<float>(r, c) *= s`, with `mul` the floating-point product
it computes; outside the matrix it is undefined. -/
def Mat.mulAt (mul : Scalar → Scalar → Scalar) (m : Mat) (r c : Nat) (s : Scalar) :
    Option Mat :=
  if r < m.rows ∧ c < m.cols then
    match m.data[r * m.cols + c]? with
    | some v => some { m with data := m.data.set (r * m.cols + c) (mul v s) }
    | none => none
  else none

/-- The method `GpuMat::upload`. -/
def GpuMat.upload (m : Mat) : GpuMat := m

/-- Conversion of a C++ floating-point value to `int`: truncation toward zero. -/
def truncToInt (q : Scalar) : Int := Int.tdiv q.num (q.den : Int)

/-- The call `std::vector::resize(n)`: keep the first `n` elements, pad with
default-constructed ones. -/
def vresize {α : Type} (xs : List α) (n : Nat) (dflt : α) : List α :=
  xs.take n ++ List.replicate (n - xs.length) dflt

/-- Interpolation flags used by the code. -/
inductive Interp where
  | INTER_NEAREST
  | INTER_LINEAR
deriving DecidableEq, Repr

/-- Border flags used by the code. -/
inductive Border where
  | BORDER_CONSTANT
  | BORDER_REFLECT
deriving DecidableEq, Repr

/-- The constants of `SVConfig.hpp`, which is not among the sources: they are
parameters of the development. -/
structure SVConfig where
  NUM_CAMERAS : Nat
  PROCESS_SCALE : Scalar
  CAMERA_WIDTH : Int
  CAMERA_HEIGHT : Int
  OUTPUT_WIDTH : Int
  OUTPUT_HEIGHT : Int
  NUM_BLEND_BANDS : Nat
  GAIN_UPDATE_INTERVAL : Nat
deriving DecidableEq, Repr

/-! ## The calibration folder -/

/-- The files the code opens in the calibration folder:
`<folder>/Camparam<i>.yaml` and `<folder>/corner_warppts.yaml`. -/
inductive CalibFile where
  | Camparam (i : Nat)
  | corner_warppts
deriving DecidableEq, Repr

/-- A `cv::FileStorage` that has been opened for reading: for each key the code
looks up, the value of the node, or `none` when the file has no such node. -/
structure FileStorage where
  FocalLength : Option Scalar
  Intrisic : Option Mat
  Rotation : Option Mat
  res_size : Option Size
  tl : Option Point
  tr : Option Point
  bl : Option Point
  br : Option Point
deriving DecidableEq, Repr

/-- The content of a calibration folder: `none` for a file that cannot be opened
(`fs.isOpened()` is false). -/
abbrev Folder := CalibFile → Option FileStorage

/-- The statement `fs[key] >> v`: OpenCV stores the value of the node, and the
default-constructed value when the node is absent. -/
def readNode {α : Type} (node : Option α) (dflt : α) : α := node.getD dflt

/-- Reads the code performs on its inputs. -/
inductive Event where
  | openFile (f : CalibFile)
  | readFrame (i : Nat)
deriving DecidableEq, Repr

/-! ## Collaborators -/

/-- A call received by the multi-band blender. -/
inductive BlenderCall where
  | prepare (corners : List Point) (sizes : List Size) (masks : List GpuMat)
  | feed (img : GpuMat) (mask : GpuMat) (idx : Nat)
  | blend (flag : Bool)
deriving DecidableEq, Repr

/-- Modelled from the spec: class `SVMultiBandBlender`, whose header and
implementation are not among the sources. Spec 4.5 gives it the operations
`prepare`, `feed` and `blend` over a configured number of bands; the object is
represented by its band count and the calls it has received so far, of which any
implementation's internal state is a function. -/
structure SVMultiBandBlender where
  num_bands : Nat
  calls : List BlenderCall
deriving DecidableEq, Repr

/-- A call received by the gain compensator. -/
inductive GainCall where
  | init (imgs : List GpuMat) (corners : List Point) (masks : List GpuMat)
  | apply (img : GpuMat) (idx : Nat)
  | recompute (imgs : List GpuMat) (corners : List Point) (masks : List GpuMat)
deriving DecidableEq, Repr

/-- Modelled from the spec: class `SVGainCompensator`, whose header and
implementation are not among the sources. Spec 4.4 gives it the operations `init`,
`apply` and `recompute`; the object is represented by its camera count and the
calls it has received so far. -/
structure SVGainCompensator where
  num_cameras : Nat
  calls : List GainCall
deriving DecidableEq, Repr

/-- The routines the code calls outside `SVStitcherSimple.cpp`, and the
floating-point products it computes, whose results are rounded by the machine. -/
structure Library where
  /-- The floating-point product `n * scale_factor` of an `int` and the scale
  factor (lines 126-127 and 178), before its conversion to `int`. -/
  mulInt : Int → Scalar → Scalar
  /-- The floating-point product stored by `x *= scale_factor` in a matrix entry
  (lines 132-135 and 183-186). -/
  mulEntry : Scalar → Scalar → Scalar
  /-- The value `static_cast<float>(scale_factor * focal_length)` (lines 122 and
  174), from `scale_factor` and `focal_length`. -/
  mulRadius : Scalar → Scalar → Scalar
  /-- The call `cv::cuda::resize(src, dst, Size(), fx, fy, interp)`. -/
  resize : GpuMat → Scalar → Scalar → Interp → GpuMat
  /-- The call `cv::cuda::resize(src, dst, dsize, 0, 0, interp)`. -/
  resizeTo : GpuMat → Size → Interp → GpuMat
  /-- The call `cv::cuda::remap(src, dst, xmap, ymap, interp, border)`. -/
  remap : GpuMat → GpuMat → GpuMat → Interp → Border → GpuMat
  /-- The call `src.convertTo(dst, CV_16SC3)`. -/
  convertTo16S : GpuMat → GpuMat
  /-- The call `SphericalWarper(radius).warp(src, K, R, interp, border, dst)`:
  the returned corner and `dst`. -/
  warp : Scalar → Mat → Mat → Mat → Interp → Border → Point × Mat
  /-- The call `SphericalWarper(radius).buildMaps(size, K, R, xmap, ymap)`. -/
  buildMaps : Scalar → Size → Mat → Mat → Mat × Mat
  /-- The call `cv::getPerspectiveTransform(src, dst)`. -/
  getPerspectiveTransform : List Point2f → List Point2f → Mat
  /-- The call `cv::cuda::buildWarpPerspectiveMaps(M, inverse, dsize, xmap, ymap)`. -/
  buildWarpPerspectiveMaps : Mat → Bool → Size → GpuMat × GpuMat
  /-- The image written by `gain_comp->apply(src, dst, idx)`. -/
  gainApply : SVGainCompensator → GpuMat → Nat → GpuMat
  /-- The image written by `blender->blend(dst, flag)`. -/
  blend : SVMultiBandBlender → Bool → GpuMat

/-! ## The stitcher -/

/-- The data members of class `SVStitcherSimple`, as used by
`SVStitcherSimple.cpp` (the header is not among the sources). -/
structure SVStitcherSimple where
  is_init : Bool
  num_cameras : Nat
  scale_factor : Scalar
  focal_length : Scalar
  K_matrices : List Mat
  R_matrices : List Mat
  warp_x_maps : List GpuMat
  warp_y_maps : List GpuMat
  warp_corners : List Point
  warp_sizes : List Size
  blend_masks : List GpuMat
  crop_warp_x : GpuMat
  crop_warp_y : GpuMat
  output_size : Size
  blender : Option SVMultiBandBlender
  gain_comp : Option SVGainCompensator
deriving DecidableEq, Repr

/-- The constructor: `is_init(false), num_cameras(NUM_CAMERAS),
scale_factor(PROCESS_SCALE)`; every other member is default-constructed
(`focal_length`, which the constructor leaves unset, is taken as `0`). -/
def SVStitcherSimple.new (cfg : SVConfig) : SVStitcherSimple where
  is_init := false
  num_cameras := cfg.NUM_CAMERAS
  scale_factor := cfg.PROCESS_SCALE
  focal_length := 0
  K_matrices := []
  R_matrices := []
  warp_x_maps := []
  warp_y_maps := []
  warp_corners := []
  warp_sizes := []
  blend_masks := []
  crop_warp_x := Mat.new
  crop_warp_y := Mat.new
  output_size := ⟨0, 0⟩
  blender := none
  gain_comp := none

/-- What a member function leaves behind: its return value, the object and the
reads it performed, in order. -/
structure Outcome (α : Type) where
  ret : α
  self : SVStitcherSimple
  trace : List Event

/-- What `stitch` leaves behind: as `Outcome`, with the reference parameter
`output`. -/
structure StitchOutcome where
  ret : Bool
  self : SVStitcherSimple
  output : GpuMat
  trace : List Event

/-- The loop of `stitch` (lines 263-285): `k` iterations starting at camera `i`. -/
def stitchFeed (lib : Library) (frames : List GpuMat) :
    Nat → Nat → SVStitcherSimple → List Event → Option (SVStitcherSimple × List Event)
  | 0, _, s, t => some (s, t)
  | k + 1, i, s, t =>
    match frames[i]?, s.gain_comp, s.warp_x_maps[i]?, s.warp_y_maps[i]?,
        s.blend_masks[i]?, s.blender with
    | some frame, some g, some xmap, some ymap, some mask, some b =>
      let scaled_frame := lib.resize frame s.scale_factor s.scale_factor .INTER_LINEAR
      let compensated_frame := lib.gainApply g scaled_frame i
      let g1 : SVGainCompensator := { g with calls := g.calls ++ [.apply scaled_frame i] }
      let warped_frame := lib.remap compensated_frame xmap ymap .INTER_LINEAR .BORDER_CONSTANT
      let warped_16s := lib.convertTo16S warped_frame
      let b1 : SVMultiBandBlender := { b with calls := b.calls ++ [.feed warped_16s mask i] }
      stitchFeed lib frames k (i + 1) { s with gain_comp := some g1, blender := some b1 }
        (t ++ [.readFrame i])
    | _, _, _, _, _, _ => none

/-- The member function `SVStitcherSimple::stitch(frames, output)`. -/
def stitch (lib : Library) (s : SVStitcherSimple) (frames : List GpuMat)
    (output : GpuMat) : Option StitchOutcome :=
  if !s.is_init then
    some ⟨false, s, output, []⟩
  else if frames.length ≠ s.num_cameras then
    some ⟨false, s, output, []⟩
  else
    match stitchFeed lib frames s.num_cameras 0 s [] with
    | none => none
    | some (s1, t) =>
      match s1.blender with
      | none => none
      | some b =>
        let blended := lib.blend b false
        let s2 := { s1 with blender := some { b with calls := b.calls ++ [.blend false] } }
        if !s2.crop_warp_x.empty && !s2.crop_warp_y.empty then
          some ⟨true, s2,
            lib.remap blended s2.crop_warp_x s2.crop_warp_y .INTER_LINEAR .BORDER_CONSTANT, t⟩
        else
          some ⟨true, s2, lib.resizeTo blended s2.output_size .INTER_LINEAR, t⟩

/-- The loop of `recomputeGain` (lines 311-319). -/
def recomputeWarp (lib : Library) (s : SVStitcherSimple) (frames : List GpuMat) :
    Nat → Nat → List GpuMat → List Event → Option (List GpuMat × List Event)
  | 0, _, warped_frames, t => some (warped_frames, t)
  | k + 1, i, warped_frames, t =>
    match frames[i]?, s.warp_x_maps[i]?, s.warp_y_maps[i]? with
    | some frame, some xmap, some ymap =>
      let scaled_frame := lib.resize frame s.scale_factor s.scale_factor .INTER_LINEAR
      recomputeWarp lib s frames k (i + 1)
        (warped_frames.set i (lib.remap scaled_frame xmap ymap .INTER_LINEAR .BORDER_CONSTANT))
        (t ++ [.readFrame i])
    | _, _, _ => none

/-- The member function `SVStitcherSimple::recomputeGain(frames)`. -/
def recomputeGain (lib : Library) (s : SVStitcherSimple) (frames : List GpuMat) :
    Option (Outcome Unit) :=
  match s.is_init, s.gain_comp with
  | true, some g =>
    match recomputeWarp lib s frames s.num_cameras 0
        (List.replicate s.num_cameras Mat.new) [] with
    | none => none
    | some (warped_frames, t) =>
      some ⟨(), { s with gain_comp := some { g with calls := g.calls ++
          [.recompute warped_frames s.warp_corners s.blend_masks] } }, t⟩
  | _, _ => some ⟨(), s, []⟩

/-- The loop of `loadCalibration` (lines 89-105): `k` iterations starting at
camera `i`; the result is `false` as soon as a file cannot be opened. -/
def loadCalibrationLoop (folder : Folder) :
    Nat → Nat → SVStitcherSimple → List Event → Outcome Bool
  | 0, _, s, t => ⟨true, s, t⟩
  | k + 1, i, s, t =>
    match folder (.Camparam i) with
    | none => ⟨false, s, t ++ [.openFile (.Camparam i)]⟩
    | some fs =>
      let s1 := { s with focal_length := readNode fs.FocalLength 0 }
      let s2 := { s1 with K_matrices := s1.K_matrices.set i (readNode fs.Intrisic Mat.new) }
      let s3 := { s2 with R_matrices := s2.R_matrices.set i (readNode fs.Rotation Mat.new) }
      loadCalibrationLoop folder k (i + 1) s3 (t ++ [.openFile (.Camparam i)])

/-- The member function `SVStitcherSimple::loadCalibration(folder)`. -/
def loadCalibration (s : SVStitcherSimple) (folder : Folder) : Outcome Bool :=
  let s1 := { s with K_matrices := vresize s.K_matrices s.num_cameras Mat.new }
  let s2 := { s1 with R_matrices := vresize s1.R_matrices s1.num_cameras Mat.new }
  loadCalibrationLoop folder s2.num_cameras 0 s2 []

/-- The scaled intrinsic matrix of `setupWarpMaps` and `createOverlapMasks`
(lines 131-135 and 182-186): a clone of `K` with `fx`, `fy`, `cx`, `cy`
multiplied by the scale factor. -/
def scaleK (lib : Library) (K : Mat) (scale_factor : Scalar) : Option Mat :=
  (((K.mulAt lib.mulEntry 0 0 scale_factor).bind
    fun K => K.mulAt lib.mulEntry 1 1 scale_factor).bind
    fun K => K.mulAt lib.mulEntry 0 2 scale_factor).bind
    fun K => K.mulAt lib.mulEntry 1 2 scale_factor

/-- The loop of `setupWarpMaps` (lines 129-160). -/
def setupWarpMapsLoop (lib : Library) (radius : Scalar) (scaled_input : Size) :
    Nat → Nat → SVStitcherSimple → Option SVStitcherSimple
  | 0, _, s => some s
  | k + 1, i, s =>
    match s.K_matrices[i]?, s.R_matrices[i]? with
    | some K, some R =>
      match scaleK lib K s.scale_factor with
      | none => none
      | some K_scaled =>
        let w := lib.warp radius (Mat.filled scaled_input 3 0) K_scaled R
          .INTER_LINEAR .BORDER_REFLECT
        let s1 := { s with warp_corners := s.warp_corners.set i w.1 }
        let s2 := { s1 with warp_sizes := s1.warp_sizes.set i w.2.size }
        let maps := lib.buildMaps radius scaled_input K_scaled R
        let s3 := { s2 with warp_x_maps := s2.warp_x_maps.set i (GpuMat.upload maps.1) }
        let s4 := { s3 with warp_y_maps := s3.warp_y_maps.set i (GpuMat.upload maps.2) }
        setupWarpMapsLoop lib radius scaled_input k (i + 1) s4
    | _, _ => none

/-- The member function `SVStitcherSimple::setupWarpMaps()`; `none` is undefined
behaviour, `some (b, s)` is the return value `b` with the object `s`. -/
def setupWarpMaps (lib : Library) (cfg : SVConfig) (s : SVStitcherSimple) :
    Option (Bool × SVStitcherSimple) :=
  let s1 := { s with warp_x_maps := vresize s.warp_x_maps s.num_cameras Mat.new }
  let s2 := { s1 with warp_y_maps := vresize s1.warp_y_maps s1.num_cameras Mat.new }
  let s3 := { s2 with warp_corners := vresize s2.warp_corners s2.num_cameras ⟨0, 0⟩ }
  let s4 := { s3 with warp_sizes := vresize s3.warp_sizes s3.num_cameras ⟨0, 0⟩ }
  let radius := lib.mulRadius s4.scale_factor s4.focal_length
  let input_size : Size := ⟨cfg.CAMERA_WIDTH, cfg.CAMERA_HEIGHT⟩
  let scaled_input : Size := ⟨truncToInt (lib.mulInt input_size.width s4.scale_factor),
    truncToInt (lib.mulInt input_size.height s4.scale_factor)⟩
  (setupWarpMapsLoop lib radius scaled_input s4.num_cameras 0 s4).map fun s5 => (true, s5)

/-- The loop of `createOverlapMasks` (lines 176-197). -/
def createOverlapMasksLoop (lib : Library) (cfg : SVConfig) (radius : Scalar) :
    Nat → Nat → SVStitcherSimple → Option SVStitcherSimple
  | 0, _, s => some s
  | k + 1, i, s =>
    let scaled_size : Size := ⟨truncToInt (lib.mulInt cfg.CAMERA_WIDTH s.scale_factor),
      truncToInt (lib.mulInt cfg.CAMERA_HEIGHT s.scale_factor)⟩
    let full_mask := Mat.filled scaled_size 1 255
    match s.K_matrices[i]?, s.R_matrices[i]? with
    | some K, some R =>
      match scaleK lib K s.scale_factor with
      | none => none
      | some K_scaled =>
        let w := lib.warp radius full_mask K_scaled R .INTER_NEAREST .BORDER_CONSTANT
        createOverlapMasksLoop lib cfg radius k (i + 1)
          { s with blend_masks := s.blend_masks.set i (GpuMat.upload w.2) }
    | _, _ => none

/-- The member function `SVStitcherSimple::createOverlapMasks(sample_frames)`;
the body does not use `sample_frames`. -/
def createOverlapMasks (lib : Library) (cfg : SVConfig) (s : SVStitcherSimple)
    (_sample_frames : List GpuMat) : Option (Bool × SVStitcherSimple) :=
  let s1 := { s with blend_masks := vresize s.blend_masks s.num_cameras Mat.new }
  let radius := lib.mulRadius s1.scale_factor s1.focal_length
  (createOverlapMasksLoop lib cfg radius s1.num_cameras 0 s1).map fun s2 => (true, s2)

/-- The source points of the crop transform (lines 227-232). -/
def cropSrcPts (tl tr bl br : Point) : List Point2f :=
  [⟨tl.x, tl.y⟩, ⟨tr.x, tr.y⟩, ⟨bl.x, bl.y⟩, ⟨br.x, br.y⟩]

/-- The destination points of the crop transform (lines 234-239). -/
def cropDstPts (output_size : Size) : List Point2f :=
  [⟨0, 0⟩, ⟨output_size.width, 0⟩, ⟨0, output_size.height⟩,
    ⟨output_size.width, output_size.height⟩]

/-- The member function `SVStitcherSimple::setupOutputCrop(folder)`. -/
def setupOutputCrop (lib : Library) (cfg : SVConfig) (s : SVStitcherSimple)
    (folder : Folder) : Outcome Bool :=
  match folder .corner_warppts with
  | none =>
    ⟨true, { s with output_size := ⟨cfg.OUTPUT_WIDTH, cfg.OUTPUT_HEIGHT⟩ },
      [.openFile .corner_warppts]⟩
  | some fs =>
    let s1 := { s with output_size := readNode fs.res_size ⟨0, 0⟩ }
    let tl := readNode fs.tl ⟨0, 0⟩
    let tr := readNode fs.tr ⟨0, 0⟩
    let bl := readNode fs.bl ⟨0, 0⟩
    let br := readNode fs.br ⟨0, 0⟩
    let transform := lib.getPerspectiveTransform (cropSrcPts tl tr bl br)
      (cropDstPts s1.output_size)
    let maps := lib.buildWarpPerspectiveMaps transform false s1.output_size
    ⟨true, { s1 with crop_warp_x := maps.1, crop_warp_y := maps.2 },
      [.openFile .corner_warppts]⟩

/-- The loop of `initFromFiles` that warps the sample frames (lines 59-66). -/
def warpSamples (lib : Library) (s : SVStitcherSimple) (sample_frames : List GpuMat) :
    Nat → Nat → List GpuMat → List Event → Option (List GpuMat × List Event)
  | 0, _, warped_samples, t => some (warped_samples, t)
  | k + 1, i, warped_samples, t =>
    match sample_frames[i]?, s.warp_x_maps[i]?, s.warp_y_maps[i]? with
    | some frame, some xmap, some ymap =>
      let scaled := lib.resize frame s.scale_factor s.scale_factor .INTER_LINEAR
      warpSamples lib s sample_frames k (i + 1)
        (warped_samples.set i (lib.remap scaled xmap ymap .INTER_LINEAR .BORDER_CONSTANT))
        (t ++ [.readFrame i])
    | _, _, _ => none

/-- The member function `SVStitcherSimple::initFromFiles(calib_folder,
sample_frames)`. -/
def initFromFiles (lib : Library) (cfg : SVConfig) (s : SVStitcherSimple)
    (calib_folder : Folder) (sample_frames : List GpuMat) : Option (Outcome Bool) :=
  if s.is_init then
    some ⟨false, s, []⟩
  else if sample_frames.length ≠ s.num_cameras then
    some ⟨false, s, []⟩
  else
    let c := loadCalibration s calib_folder
    if !c.ret then
      some ⟨false, c.self, c.trace⟩
    else
      match setupWarpMaps lib cfg c.self with
      | none => none
      | some (ok_w, s_w) =>
        if !ok_w then
          some ⟨false, s_w, c.trace⟩
        else
          match createOverlapMasks lib cfg s_w sample_frames with
          | none => none
          | some (ok_m, s_m) =>
            if !ok_m then
              some ⟨false, s_m, c.trace⟩
            else
              let b : SVMultiBandBlender := ⟨cfg.NUM_BLEND_BANDS,
                [.prepare s_m.warp_corners s_m.warp_sizes s_m.blend_masks]⟩
              let s_b := { s_m with blender := some b }
              let g : SVGainCompensator := ⟨s_b.num_cameras, []⟩
              let s_c := { s_b with gain_comp := some g }
              match warpSamples lib s_c sample_frames s_c.num_cameras 0
                  (List.replicate s_c.num_cameras Mat.new) [] with
              | none => none
              | some (warped_samples, t_s) =>
                let g1 : SVGainCompensator := { g with calls := g.calls ++
                  [.init warped_samples s_c.warp_corners s_c.blend_masks] }
                let s_g := { s_c with gain_comp := some g1 }
                let o := setupOutputCrop lib cfg s_g calib_folder
                if !o.ret then
                  some ⟨false, o.self, c.trace ++ t_s ++ o.trace⟩
                else
                  some ⟨true, { o.self with is_init := true }, c.trace ++ t_s ++ o.trace⟩

/-! ## Sequences of calls -/

/-- A call of a public member function, with its arguments. -/
inductive Call where
  | initFromFiles (calib_folder : Folder) (sample_frames : List GpuMat)
  | stitch (frames : List GpuMat) (output : GpuMat)
  | recomputeGain (frames : List GpuMat)

/-- The object after one call; `none` when the call has undefined behaviour. -/
def step (lib : Library) (cfg : SVConfig) (s : SVStitcherSimple) :
    Call → Option SVStitcherSimple
  | .initFromFiles folder frames => (initFromFiles lib cfg s folder frames).map (·.self)
  | .stitch frames output => (stitch lib s frames output).map (·.self)
  | .recomputeGain frames => (recomputeGain lib s frames).map (·.self)

/-- The object after a sequence of calls. -/
def run (lib : Library) (cfg : SVConfig) (s : SVStitcherSimple) :
    List Call → Option SVStitcherSimple
  | [] => some s
  | c :: cs => (step lib cfg s c).bind fun s1 => run lib cfg s1 cs

/-- The states an `SVStitcherSimple` can be in: those reached from a freshly
constructed object by a sequence of calls. -/
def Reachable (lib : Library) (cfg : SVConfig) (s : SVStitcherSimple) : Prop :=
  ∃ calls, run lib cfg (SVStitcherSimple.new cfg) calls = some s

/-! ## Definitions used in the statements -/

/-- The frame of camera `j` resized to processing scale, as computed by `stitch`. -/
def scaledFrame (lib : Library) (s : SVStitcherSimple) (frames : List GpuMat) (j : Nat) :
    GpuMat :=
  lib.resize (frames.getD j Mat.new) s.scale_factor s.scale_factor .INTER_LINEAR

/-- The gain compensator `g0` after the `apply` calls of cameras `0 .. j-1`. -/
def gainAfter (lib : Library) (s : SVStitcherSimple) (frames : List GpuMat)
    (g0 : SVGainCompensator) (j : Nat) : SVGainCompensator :=
  { g0 with calls := g0.calls ++
      (List.range j).map fun m => GainCall.apply (scaledFrame lib s frames m) m }

/-- The image `stitch` feeds to the blender for camera `j`: scaled, gain
compensated, warped through the camera's maps, converted to 16 bit. -/
def fedImage (lib : Library) (s : SVStitcherSimple) (frames : List GpuMat)
    (g0 : SVGainCompensator) (j : Nat) : GpuMat :=
  lib.convertTo16S (lib.remap
    (lib.gainApply (gainAfter lib s frames g0 j) (scaledFrame lib s frames j) j)
    (s.warp_x_maps.getD j Mat.new) (s.warp_y_maps.getD j Mat.new)
    .INTER_LINEAR .BORDER_CONSTANT)

/-- The `feed` call of camera `j`. -/
def feedCall (lib : Library) (s : SVStitcherSimple) (frames : List GpuMat)
    (g0 : SVGainCompensator) (j : Nat) : BlenderCall :=
  .feed (fedImage lib s frames g0 j) (s.blend_masks.getD j Mat.new) j

/-- The output image of a successful `stitch`: the crop remap of the blended
panorama when both crop maps are set, else its resize to `output_size`. -/
def cropOrResize (lib : Library) (s : SVStitcherSimple) (blended : GpuMat) : GpuMat :=
  if !s.crop_warp_x.empty && !s.crop_warp_y.empty then
    lib.remap blended s.crop_warp_x s.crop_warp_y .INTER_LINEAR .BORDER_CONSTANT
  else
    lib.resizeTo blended s.output_size .INTER_LINEAR

/-- The blender `b` after the `feed` calls of cameras `0 .. n-1`. -/
def blenderFed (lib : Library) (s : SVStitcherSimple) (frames : List GpuMat)
    (g0 : SVGainCompensator) (b : SVMultiBandBlender) (n : Nat) : SVMultiBandBlender :=
  { b with calls := b.calls ++ (List.range n).map (feedCall lib s frames g0) }

/-- The object with the members written by `loadCalibration` blanked. -/
def eraseCalib (s : SVStitcherSimple) : SVStitcherSimple :=
  { s with focal_length := 0, K_matrices := [], R_matrices := [] }

/-- The object with the members written by `setupWarpMaps` blanked. -/
def eraseWarp (s : SVStitcherSimple) : SVStitcherSimple :=
  { s with warp_x_maps := [], warp_y_maps := [], warp_corners := [], warp_sizes := [] }

/-- The object with the member written by `createOverlapMasks` blanked. -/
def eraseMasks (s : SVStitcherSimple) : SVStitcherSimple :=
  { s with blend_masks := [] }

/-- The object with the members written by `setupOutputCrop` blanked. -/
def eraseCrop (s : SVStitcherSimple) : SVStitcherSimple :=
  { s with crop_warp_x := Mat.new, crop_warp_y := Mat.new, output_size := ⟨0, 0⟩ }

/-- The files `Camparam<i>.yaml` for `i` in `[i, i + n)`, as `openFile` events. -/
def openCamparams (i n : Nat) : List Event :=
  (List.range' i n).map fun j => Event.openFile (.Camparam j)

/-- The intrinsic matrix `loadCalibration` stores for camera `j`. -/
def recordK (folder : Folder) (j : Nat) : Mat :=
  readNode ((folder (.Camparam j)).bind (·.Intrisic)) Mat.new

/-- The rotation matrix `loadCalibration` stores for camera `j`. -/
def recordR (folder : Folder) (j : Nat) : Mat :=
  readNode ((folder (.Camparam j)).bind (·.Rotation)) Mat.new

/-- The focal length `loadCalibration` stores from the record of camera `j`. -/
def recordFocal (folder : Folder) (j : Nat) : Scalar :=
  readNode ((folder (.Camparam j)).bind (·.FocalLength)) 0

/-- The object `initFromFiles` hands to `setupOutputCrop`: the object after mask
creation with the blender prepared and the gain compensator initialised. -/
def withCollaborators (cfg : SVConfig) (s_m : SVStitcherSimple)
    (warped_samples : List GpuMat) : SVStitcherSimple :=
  { s_m with
    blender := some ⟨cfg.NUM_BLEND_BANDS,
      [.prepare s_m.warp_corners s_m.warp_sizes s_m.blend_masks]⟩,
    gain_comp := some ⟨s_m.num_cameras,
      [.init warped_samples s_m.warp_corners s_m.blend_masks]⟩ }

/-- The class invariant of `SVStitcherSimple`: the constants set by the
constructor, complete per-camera tables and collaborators once initialised, and
no crop maps before initialisation. -/
structure Inv (cfg : SVConfig) (s : SVStitcherSimple) : Prop where
  cams : s.num_cameras = cfg.NUM_CAMERAS
  scale : s.scale_factor = cfg.PROCESS_SCALE
  K_len : s.is_init = true → s.K_matrices.length = s.num_cameras
  R_len : s.is_init = true → s.R_matrices.length = s.num_cameras
  x_len : s.is_init = true → s.warp_x_maps.length = s.num_cameras
  y_len : s.is_init = true → s.warp_y_maps.length = s.num_cameras
  corners_len : s.is_init = true → s.warp_corners.length = s.num_cameras
  sizes_len : s.is_init = true → s.warp_sizes.length = s.num_cameras
  masks_len : s.is_init = true → s.blend_masks.length = s.num_cameras
  blender_set : s.is_init = true → s.blender ≠ none
  gain_set : s.is_init = true → s.gain_comp ≠ none
  crop_x : s.is_init = false → s.crop_warp_x = Mat.new
  crop_y : s.is_init = false → s.crop_warp_y = Mat.new

/-- The object with the collaborators (blender, gain compensator) blanked. -/
def eraseCollab (s : SVStitcherSimple) : SVStitcherSimple :=
  { s with blender := none, gain_comp := none }

/-- The calibration, the warp tables, corners, sizes, masks, crop maps and output
size of `a` are those of `b`. -/
def SameGeometry (a b : SVStitcherSimple) : Prop :=
  a.K_matrices = b.K_matrices ∧ a.R_matrices = b.R_matrices ∧
  a.focal_length = b.focal_length ∧
  a.warp_x_maps = b.warp_x_maps ∧ a.warp_y_maps = b.warp_y_maps ∧
  a.warp_corners = b.warp_corners ∧ a.warp_sizes = b.warp_sizes ∧
  a.blend_masks = b.blend_masks ∧
  a.crop_warp_x = b.crop_warp_x ∧ a.crop_warp_y = b.crop_warp_y ∧
  a.output_size = b.output_size

/-- The setup steps of `initFromFiles`. -/
inductive InitStep where
  | loadCalibration
  | setupWarpMaps
  | createOverlapMasks
  | blenderPrepare
  | gainInit
  | setupOutputCrop
deriving DecidableEq, Repr

/-- The order of the setup steps as the sections 4.1 to 4.6 of the specification
list them: the gain compensator (4.4) before the blender (4.5). -/
def specInitOrder : List InitStep :=
  [.loadCalibration, .setupWarpMaps, .createOverlapMasks, .gainInit, .blenderPrepare,
    .setupOutputCrop]

/-! ## The application loop (`SVAppSimple.cpp`, `main.cpp`) -/

/-- Modelled from the spec: struct `Frame` of `SVEthernetCamera.hpp`, which is not
among the sources; the code uses only its member `gpuFrame`, one of the image
buffers the upstream collaborator supplies (spec section 6). -/
structure Frame where
  gpuFrame : GpuMat

/-- The data members of class `SVAppSimple` that `run` uses. `frames` is the
`std::array<Frame, NUM_CAMERAS>`: entry `i` for `i < NUM_CAMERAS`. The camera
source and the renderer are collaborators whose answers are in `LoopInput`. -/
structure SVAppSimple where
  frames : Nat → Frame
  stitcher : Option SVStitcherSimple
  stitched_output : GpuMat
  is_running : Bool

/-- The local variables of `SVAppSimple::run` that live across iterations; times
are readings of `steady_clock` in clock ticks. -/
structure RunLocals where
  last_gain_update : Int
  frame_count : Int
  last_fps_time : Int
deriving DecidableEq, Repr

/-- What the collaborators answer during one pass of the loop of `run`:
`renderer->shouldClose()`, the return value of `camera_source->capture(frames)`
and the content of `frames` after it, the reading of `steady_clock::now()`, and
the return value of `renderer->render(stitched_output)`. -/
structure LoopInput where
  shouldClose : Bool
  captureOk : Bool
  captured : Nat → Frame
  now : Int
  renderOk : Bool

/-- The calls `run` makes during a pass, in order. `recomputeGain` carries the
clock reading `now` of its pass. -/
inductive AppEvent where
  | shouldClose (ret : Bool)
  | capture (ret : Bool)
  | sleep (ms : Nat)
  | stitch (frames : List GpuMat) (ret : Bool)
  | now (t : Int)
  | recomputeGain (frames : List GpuMat) (t : Int)
  | render (img : GpuMat) (ret : Bool)
deriving DecidableEq, Repr

/-- Where control goes at the end of a pass: back to the loop condition, or out
of the loop. -/
inductive LoopControl where
  | again
  | done
deriving DecidableEq, Repr

/-- The validation loop of `run` (lines 172-179): `k` iterations from camera `i`;
`false` at the first empty frame. -/
def allValid (frames : Nat → Frame) : Nat → Nat → Bool
  | 0, _ => true
  | k + 1, i => if (frames i).gpuFrame.empty then false else allValid frames k (i + 1)

/-- The loop of `run` that fills `gpu_frames` (lines 187-190). -/
def gpuFrames (frames : Nat → Frame) : Nat → Nat → List GpuMat → List GpuMat
  | 0, _, gpu_frames => gpu_frames
  | k + 1, i, gpu_frames => gpuFrames frames k (i + 1) (gpu_frames ++ [(frames i).gpuFrame])

/-- What one pass of the loop leaves behind. -/
structure PassResult where
  app : SVAppSimple
  locals : RunLocals
  events : List AppEvent
  control : LoopControl

/-- The periodic gain update of `run` (lines 199-204), after `stitch` returned
`true` and `now` was read; `tps` is the number of clock ticks in a second. -/
def gainUpdate (lib : Library) (cfg : SVConfig) (tps : Int) (app : SVAppSimple)
    (loc : RunLocals) (gpu_frames : List GpuMat) (now : Int) :
    Option (SVAppSimple × RunLocals × List AppEvent) :=
  if now - loc.last_gain_update ≥ (cfg.GAIN_UPDATE_INTERVAL : Int) * tps then
    match app.stitcher with
    | none => none
    | some st =>
      match recomputeGain lib st gpu_frames with
      | none => none
      | some og =>
        some ({ app with stitcher := some og.self }, { loc with last_gain_update := now },
          [.recomputeGain gpu_frames now])
  else
    some (app, loc, [])

/-- One evaluation of the loop condition of `SVAppSimple::run` (line 163),
followed by the loop body (lines 164-225) when it holds. -/
def SVAppSimple.loopPass (lib : Library) (cfg : SVConfig) (tps : Int) (app : SVAppSimple)
    (loc : RunLocals) (inp : LoopInput) : Option PassResult :=
  if !app.is_running then
    some ⟨app, loc, [], .done⟩
  else if inp.shouldClose then
    some ⟨app, loc, [.shouldClose true], .done⟩
  else
    let app1 := { app with frames := inp.captured }
    if !inp.captureOk then
      some ⟨app1, loc, [.shouldClose false, .capture false, .sleep 1], .again⟩
    else if !allValid app1.frames cfg.NUM_CAMERAS 0 then
      some ⟨app1, loc, [.shouldClose false, .capture true, .sleep 1], .again⟩
    else
      let gpu_frames := gpuFrames app1.frames cfg.NUM_CAMERAS 0 []
      match app1.stitcher with
      | none => none
      | some st =>
        match stitch lib st gpu_frames app1.stitched_output with
        | none => none
        | some o =>
          let app2 := { app1 with stitcher := some o.self, stitched_output := o.output }
          if !o.ret then
            some ⟨app2, loc, [.shouldClose false, .capture true, .stitch gpu_frames false],
              .again⟩
          else
            match gainUpdate lib cfg tps app2 loc gpu_frames inp.now with
            | none => none
            | some (app3, loc3, ev_gain) =>
              let ev := [AppEvent.shouldClose false, .capture true, .stitch gpu_frames true,
                .now inp.now] ++ ev_gain
              if !inp.renderOk then
                some ⟨app3, loc3, ev ++ [.render app3.stitched_output false], .done⟩
              else
                let loc4 := { loc3 with frame_count := loc3.frame_count + 1 }
                let loc5 := if loc4.frame_count % 30 = 0 then
                  { loc4 with last_fps_time := inp.now } else loc4
                some ⟨app3, loc5, ev ++ [.render app3.stitched_output true, .sleep 3], .again⟩

/-- The loop of `SVAppSimple::run` over the answers of the collaborators for
successive passes: the events of each pass, and whether the loop was left. -/
def SVAppSimple.loop (lib : Library) (cfg : SVConfig) (tps : Int) :
    SVAppSimple → RunLocals → List LoopInput →
      Option (SVAppSimple × RunLocals × List (List AppEvent) × LoopControl)
  | app, loc, [] => some (app, loc, [], .again)
  | app, loc, inp :: rest =>
    match SVAppSimple.loopPass lib cfg tps app loc inp with
    | none => none
    | some r =>
      match r.control with
      | .done => some (r.app, r.locals, [r.events], .done)
      | .again =>
        (SVAppSimple.loop lib cfg tps r.app r.locals rest).map
          fun x => (x.1, x.2.1, r.events :: x.2.2.1, x.2.2.2)

/-- The member function `SVAppSimple::run()`: `t0` and `t1` are the two clock
readings before the loop (`last_gain_update` and `start_time`). -/
def SVAppSimple.run (lib : Library) (cfg : SVConfig) (tps : Int) (app : SVAppSimple)
    (t0 t1 : Int) (inputs : List LoopInput) :
    Option (SVAppSimple × RunLocals × List (List AppEvent) × LoopControl) :=
  if !app.is_running then
    some (app, ⟨t0, 0, t1⟩, [], .done)
  else
    SVAppSimple.loop lib cfg tps app ⟨t0, 0, t1⟩ inputs

/-- The member function `SVAppSimple::stop()`, as far as the members modelled. -/
def SVAppSimple.stop (app : SVAppSimple) : SVAppSimple := { app with is_running := false }

/-- The clock readings at which the passes called `recomputeGain`. -/
def gainTimes : List AppEvent → List Int
  | [] => []
  | .recomputeGain _ t :: rest => t :: gainTimes rest
  | _ :: rest => gainTimes rest

/-- The clock readings of all `recomputeGain` calls of a run, in order. -/
def gainTimesAll : List (List AppEvent) → List Int
  | [] => []
  | ev :: rest => gainTimes ev ++ gainTimesAll rest

/-- The state of the process of `main.cpp`: the global `g_running` and the
application object. -/
structure Process where
  g_running : Bool
  app : SVAppSimple

/-- The function `signalHandler(signum)` of `main.cpp`. -/
def signalHandler (p : Process) (_signum : Int) : Process := { p with g_running := false }

/-- What happens to the running process: a pass of the loop of `run` with the
answers of the collaborators, or the delivery of a signal (`SIGINT` is 2,
`SIGTERM` is 15), for both of which `main` installs `signalHandler`. A signal is
taken between two passes: the handler writes only `g_running`. -/
inductive RunInput where
  | pass (inp : LoopInput)
  | signal (signum : Int)

/-- The loop of `SVAppSimple::run` in a process that receives signals. -/
def Process.loop (lib : Library) (cfg : SVConfig) (tps : Int) :
    Process → RunLocals → List RunInput →
      Option (Process × RunLocals × List (List AppEvent) × LoopControl)
  | p, loc, [] => some (p, loc, [], .again)
  | p, loc, .signal signum :: rest =>
    Process.loop lib cfg tps (signalHandler p signum) loc rest
  | p, loc, .pass inp :: rest =>
    match SVAppSimple.loopPass lib cfg tps p.app loc inp with
    | none => none
    | some r =>
      match r.control with
      | .done => some ({ p with app := r.app }, r.locals, [r.events], .done)
      | .again =>
        (Process.loop lib cfg tps { p with app := r.app } r.locals rest).map
          fun x => (x.1, x.2.1, r.events :: x.2.2.1, x.2.2.2)

/-- The function `main` of `main.cpp`, from the call of `app.init` on: `initOk`
and `app` are the return value of `app.init` and the application object after it
(`init` drives the cameras and the renderer and is not modelled). The result is
the process, the events of the passes, and the exit code, `none` while `main` has
not returned after the given inputs. -/
def main (lib : Library) (cfg : SVConfig) (tps : Int) (initOk : Bool) (app : SVAppSimple)
    (t0 t1 : Int) (inputs : List RunInput) :
    Option (Process × List (List AppEvent) × Option Int) :=
  let p0 : Process := ⟨true, app⟩
  if !initOk then
    some (p0, [], some (-1))
  else if !p0.app.is_running then
    some ({ p0 with app := p0.app.stop }, [], some 0)
  else
    match Process.loop lib cfg tps p0 ⟨t0, 0, t1⟩ inputs with
    | none => none
    | some (p, _, traces, .done) => some ({ p with app := p.app.stop }, traces, some 0)
    | some (p, _, traces, .again) => some (p, traces, none)

/-- The passes among the inputs of a process. -/
def passesOf : List RunInput → List LoopInput
  | [] => []
  | .pass inp :: rest => inp :: passesOf rest
  | .signal _ :: rest => passesOf rest

/-- The name of the call an event stands for. -/
def AppEvent.name : AppEvent → String
  | .shouldClose _ => "shouldClose"
  | .capture _ => "capture"
  | .sleep _ => "sleep"
  | .stitch _ _ => "stitch"
  | .now _ => "now"
  | .recomputeGain _ _ => "recomputeGain"
  | .render _ _ => "render"

/-- The application object and the locals of `run` at the moment pass `k` of the
loop starts, that is after `k` passes that each went back to the loop condition;
`none` when the loop does not get that far. -/
def SVAppSimple.stateAt (lib : Library) (cfg : SVConfig) (tps : Int) :
    SVAppSimple → RunLocals → List LoopInput → Nat → Option (SVAppSimple × RunLocals)
  | app, loc, _, 0 => some (app, loc)
  | _, _, [], _ + 1 => none
  | app, loc, inp :: rest, k + 1 =>
    match SVAppSimple.loopPass lib cfg tps app loc inp with
    | none => none
    | some r =>
      match r.control with
      | .done => none
      | .again => SVAppSimple.stateAt lib cfg tps r.app r.locals rest k

/-- The last of the clock readings `ts`, or `t` when there is none. -/
def lastReading : Int → List Int → Int
  | t, [] => t
  | _, a :: rest => lastReading a rest

/-! ## Concrete inputs -/

/-- A small library instance, used to evaluate the code on concrete inputs. Its
products are exact, as the floating-point products of the sample values by the
sample scale 1/2 are. -/
def sampleLib : Library where
  mulInt := fun n s => n * s
  mulEntry := fun x s => x * s
  mulRadius := fun a b => a * b
  resize := fun m _ _ _ => m
  resizeTo := fun m sz _ => ⟨sz.height.toNat, sz.width.toNat, m.data⟩
  remap := fun src xmap _ _ _ => ⟨xmap.rows, xmap.cols, src.data⟩
  convertTo16S := fun m => m
  warp := fun _ src _ _ _ _ => (⟨0, 0⟩, src)
  buildMaps := fun _ sz _ _ => (Mat.filled sz 1 0, Mat.filled sz 1 1)
  getPerspectiveTransform := fun _ _ => ⟨3, 3, [1, 0, 0, 0, 1, 0, 0, 0, 1]⟩
  buildWarpPerspectiveMaps := fun _ _ sz => (Mat.filled sz 1 0, Mat.filled sz 1 1)
  gainApply := fun _ m _ => m
  blend := fun b _ => ⟨1, b.calls.length, b.calls.map fun _ => 0⟩

/-- A configuration with four cameras of 4x2 pixels, processed at half scale,
and an 8x4 output. -/
def sampleCfg : SVConfig where
  NUM_CAMERAS := 4
  PROCESS_SCALE := 1 / 2
  CAMERA_WIDTH := 4
  CAMERA_HEIGHT := 2
  OUTPUT_WIDTH := 8
  OUTPUT_HEIGHT := 4
  NUM_BLEND_BANDS := 5
  GAIN_UPDATE_INTERVAL := 30

/-- A complete camera record. -/
def sampleRecord : FileStorage where
  FocalLength := some 100
  Intrisic := some ⟨3, 3, [100, 0, 2, 0, 100, 1, 0, 0, 1]⟩
  Rotation := some ⟨3, 3, [1, 0, 0, 0, 1, 0, 0, 0, 1]⟩
  res_size := none
  tl := none
  tr := none
  bl := none
  br := none

/-- A folder with four complete camera records and no crop file. -/
def sampleFolder : Folder
  | .Camparam i => if i < 4 then some sampleRecord else none
  | .corner_warppts => none

/-- One non-empty 4x2 frame. -/
def sampleFrame : GpuMat := Mat.filled ⟨4, 2⟩ 3 7

/-- Four non-empty frames. -/
def sampleFrames : List GpuMat := [sampleFrame, sampleFrame, sampleFrame, sampleFrame]

/-- The object after `initFromFiles` on a fresh object with the sample folder and
frames. -/
def sampleReady : SVStitcherSimple :=
  ((initFromFiles sampleLib sampleCfg (SVStitcherSimple.new sampleCfg) sampleFolder
    sampleFrames).map (·.self)).getD (SVStitcherSimple.new sampleCfg)

/-- The sample folder without the record of camera 2. -/
def sampleFolderMissing2 : Folder
  | .Camparam i => if i = 2 then none else sampleFolder (.Camparam i)
  | .corner_warppts => none

/-- The outcome of `initFromFiles` on a fresh object when the record of camera 2
is missing. -/
def sampleFailed : Outcome Bool :=
  (initFromFiles sampleLib sampleCfg (SVStitcherSimple.new sampleCfg) sampleFolderMissing2
    sampleFrames).getD ⟨true, SVStitcherSimple.new sampleCfg, []⟩

/-- A record that opens but has none of the fields. -/
def sampleBlankRecord : FileStorage where
  FocalLength := none
  Intrisic := none
  Rotation := none
  res_size := none
  tl := none
  tr := none
  bl := none
  br := none

/-- The sample folder in which the record of camera 1 opens but is blank. -/
def sampleFolderBlank1 : Folder
  | .Camparam i => if i = 1 then some sampleBlankRecord else sampleFolder (.Camparam i)
  | .corner_warppts => none

/-- The outcome of `initFromFiles` on a fresh object with the sample folder, which
has no crop file. -/
def sampleInit : Outcome Bool :=
  (initFromFiles sampleLib sampleCfg (SVStitcherSimple.new sampleCfg) sampleFolder
    sampleFrames).getD ⟨false, SVStitcherSimple.new sampleCfg, []⟩

/-- A crop file that opens, gives a 2x2 canvas and three corners, and lacks `tl`. -/
def sampleBadCrop : FileStorage where
  FocalLength := none
  Intrisic := none
  Rotation := none
  res_size := some ⟨2, 2⟩
  tl := none
  tr := some ⟨5, 0⟩
  bl := some ⟨0, 5⟩
  br := some ⟨5, 5⟩

/-- The sample folder with the crop file `sampleBadCrop`. -/
def sampleFolderBadCrop : Folder
  | .Camparam i => sampleFolder (.Camparam i)
  | .corner_warppts => some sampleBadCrop

/-- The outcome of `initFromFiles` on a fresh object with the folder
`sampleFolderBadCrop`. -/
def sampleInitBadCrop : Outcome Bool :=
  (initFromFiles sampleLib sampleCfg (SVStitcherSimple.new sampleCfg) sampleFolderBadCrop
    sampleFrames).getD ⟨false, SVStitcherSimple.new sampleCfg, []⟩

/-- Five frames: one more than the sample camera count. -/
def sampleFiveFrames : List GpuMat := sampleFrames ++ [sampleFrame]

/-- A complete crop file: an 8x4 canvas and four corners. -/
def sampleGoodCrop : FileStorage where
  FocalLength := none
  Intrisic := none
  Rotation := none
  res_size := some ⟨8, 4⟩
  tl := some ⟨1, 1⟩
  tr := some ⟨6, 1⟩
  bl := some ⟨1, 5⟩
  br := some ⟨6, 5⟩

/-- The sample folder with the crop file `sampleGoodCrop`. -/
def sampleFolderGoodCrop : Folder
  | .Camparam i => sampleFolder (.Camparam i)
  | .corner_warppts => some sampleGoodCrop

/-- A record like `sampleRecord` with the given focal length. -/
def sampleRecordFocal (f : Scalar) : FileStorage :=
  { sampleRecord with FocalLength := some f }

/-- The focal lengths of the four records of `sampleFolderFocals`. -/
def sampleFocals : Nat → Scalar
  | 0 => 10
  | 1 => 20
  | 2 => 30
  | _ => 40

/-- A folder whose four camera records disagree on the focal length. -/
def sampleFolderFocals : Folder
  | .Camparam i => if i < 4 then some (sampleRecordFocal (sampleFocals i)) else none
  | .corner_warppts => none

/-- The member function `SVStitcherSimple::initFromFiles` once more, with the
setup steps it starts recorded in order: the outcome is that of `initFromFiles`
(`initFromFilesSteps_outcome`), the list names each step at the statement that
runs it (calibration load line 34, warp maps line 39, masks line 44, blender
lines 49-50, gain compensator lines 55-68, output crop line 73). -/
def initFromFilesSteps (lib : Library) (cfg : SVConfig) (s : SVStitcherSimple)
    (calib_folder : Folder) (sample_frames : List GpuMat) :
    Option (Outcome Bool × List InitStep) :=
  if s.is_init then
    some (⟨false, s, []⟩, [])
  else if sample_frames.length ≠ s.num_cameras then
    some (⟨false, s, []⟩, [])
  else
    let c := loadCalibration s calib_folder
    let log1 := [InitStep.loadCalibration]
    if !c.ret then
      some (⟨false, c.self, c.trace⟩, log1)
    else
      let log2 := log1 ++ [InitStep.setupWarpMaps]
      match setupWarpMaps lib cfg c.self with
      | none => none
      | some (ok_w, s_w) =>
        if !ok_w then
          some (⟨false, s_w, c.trace⟩, log2)
        else
          let log3 := log2 ++ [InitStep.createOverlapMasks]
          match createOverlapMasks lib cfg s_w sample_frames with
          | none => none
          | some (ok_m, s_m) =>
            if !ok_m then
              some (⟨false, s_m, c.trace⟩, log3)
            else
              let log4 := log3 ++ [InitStep.blenderPrepare]
              let b : SVMultiBandBlender := ⟨cfg.NUM_BLEND_BANDS,
                [.prepare s_m.warp_corners s_m.warp_sizes s_m.blend_masks]⟩
              let s_b := { s_m with blender := some b }
              let log5 := log4 ++ [InitStep.gainInit]
              let g : SVGainCompensator := ⟨s_b.num_cameras, []⟩
              let s_c := { s_b with gain_comp := some g }
              match warpSamples lib s_c sample_frames s_c.num_cameras 0
                  (List.replicate s_c.num_cameras Mat.new) [] with
              | none => none
              | some (warped_samples, t_s) =>
                let g1 : SVGainCompensator := { g with calls := g.calls ++
                  [.init warped_samples s_c.warp_corners s_c.blend_masks] }
                let s_g := { s_c with gain_comp := some g1 }
                let log6 := log5 ++ [InitStep.setupOutputCrop]
                let o := setupOutputCrop lib cfg s_g calib_folder
                if !o.ret then
                  some (⟨false, o.self, c.trace ++ t_s ++ o.trace⟩, log6)
                else
                  some (⟨true, { o.self with is_init := true }, c.trace ++ t_s ++ o.trace⟩,
                    log6)

/-- The running sample application: the initialised sample stitcher. -/
def sampleApp : SVAppSimple := ⟨fun _ => ⟨Mat.new⟩, some sampleReady, Mat.new, true⟩

/-- A pass in which the window stays open, capture delivers four non-empty sample
frames, the clock reads `t` and rendering succeeds. -/
def sampleGoodInput (t : Int) : LoopInput := ⟨false, true, fun _ => ⟨sampleFrame⟩, t, true⟩

/-- A pass in which capture fails. -/
def sampleFailedCapture : LoopInput := ⟨false, false, fun _ => ⟨sampleFrame⟩, 0, true⟩

/-- A pass in which capture succeeds but the frame of camera 2 is empty. -/
def sampleEmptyFrame2 : LoopInput :=
  ⟨false, true, fun i => if i = 2 then ⟨Mat.new⟩ else ⟨sampleFrame⟩, 0, true⟩

/-- The sample run: clock in milliseconds, run started at 0, a good pass at
10 s, a failed capture, an empty frame, good passes at 31 s, 40 s and 61 s. -/
def sampleRunInputs : List LoopInput :=
  [sampleGoodInput 10000, sampleFailedCapture, sampleEmptyFrame2, sampleGoodInput 31000,
    sampleGoodInput 40000, sampleGoodInput 61000]

/-- The result of the sample run. -/
def sampleRun : SVAppSimple × RunLocals × List (List AppEvent) × LoopControl :=
  (SVAppSimple.run sampleLib sampleCfg 1000 sampleApp 0 0 sampleRunInputs).getD
    (sampleApp, ⟨0, 0, 0⟩, [], .done)

/-! ## Lemmas on the loops and the invariant -/

theorem vresize_length {α : Type} (xs : List α) (n : Nat) (d : α) :
    (vresize xs n d).length = n := by
  simp [vresize]
  omega

theorem gainAfter_succ (lib : Library) (s : SVStitcherSimple) (frames : List GpuMat)
    (g0 : SVGainCompensator) (j : Nat) :
    ({ (gainAfter lib s frames g0 j) with calls := (gainAfter lib s frames g0 j).calls ++
        [GainCall.apply (scaledFrame lib s frames j) j] } : SVGainCompensator)
      = gainAfter lib s frames g0 (j + 1) := by
  simp [gainAfter, List.range_succ]

theorem stitchFeed_spec (lib : Library) (s0 : SVStitcherSimple) (frames : List GpuMat)
    (g0 : SVGainCompensator) :
    ∀ (k i : Nat) (b : SVMultiBandBlender) (t : List Event),
      i + k ≤ frames.length → i + k ≤ s0.warp_x_maps.length →
      i + k ≤ s0.warp_y_maps.length → i + k ≤ s0.blend_masks.length →
      stitchFeed lib frames k i
          { s0 with gain_comp := some (gainAfter lib s0 frames g0 i), blender := some b } t
        = some ({ s0 with
              gain_comp := some (gainAfter lib s0 frames g0 (i + k)),
              blender := some { b with
                calls := b.calls ++ (List.range' i k).map (feedCall lib s0 frames g0) } },
            t ++ (List.range' i k).map Event.readFrame) := by
  intro k
  induction k with
  | zero => intro i b t _ _ _ _; simp [stitchFeed]
  | succ k ih =>
    intro i b t hf hx hy hm
    have h1 : i < frames.length := by omega
    have h2 : i < s0.warp_x_maps.length := by omega
    have h3 : i < s0.warp_y_maps.length := by omega
    have h4 : i < s0.blend_masks.length := by omega
    simp only [stitchFeed, List.getElem?_eq_getElem, h1, h2, h3, h4]
    have e1 : lib.resize frames[i] s0.scale_factor s0.scale_factor .INTER_LINEAR
        = scaledFrame lib s0 frames i := by
      simp [scaledFrame, List.getD_eq_getElem?_getD, List.getElem?_eq_getElem, h1]
    rw [e1, gainAfter_succ]
    have e2 : BlenderCall.feed (lib.convertTo16S (lib.remap
        (lib.gainApply (gainAfter lib s0 frames g0 i) (scaledFrame lib s0 frames i) i)
        s0.warp_x_maps[i] s0.warp_y_maps[i] .INTER_LINEAR .BORDER_CONSTANT))
        s0.blend_masks[i] i = feedCall lib s0 frames g0 i := by
      simp [feedCall, fedImage, List.getD_eq_getElem?_getD, List.getElem?_eq_getElem, h2, h3, h4]
    rw [e2]
    have := ih (i + 1) { b with calls := b.calls ++ [feedCall lib s0 frames g0 i] }
      (t ++ [Event.readFrame i]) (by omega) (by omega) (by omega) (by omega)
    rw [this]
    simp [List.range'_succ, Nat.add_assoc, Nat.add_comm 1 k]

theorem gainAfter_zero (lib : Library) (s : SVStitcherSimple) (frames : List GpuMat)
    (g0 : SVGainCompensator) : gainAfter lib s frames g0 0 = g0 := by
  simp [gainAfter]

theorem stitch_rejected (lib : Library) (s : SVStitcherSimple) (frames : List GpuMat)
    (output : GpuMat) (h : s.is_init = false ∨ frames.length ≠ s.num_cameras) :
    stitch lib s frames output = some ⟨false, s, output, []⟩ := by
  unfold stitch
  rcases h with h | h
  · simp [h]
  · by_cases hi : s.is_init = true <;> simp [hi, h]

theorem stitch_accepted (lib : Library) (s : SVStitcherSimple) (frames : List GpuMat)
    (output : GpuMat) (g : SVGainCompensator) (b : SVMultiBandBlender)
    (hinit : s.is_init = true) (hlen : frames.length = s.num_cameras)
    (hx : s.warp_x_maps.length = s.num_cameras) (hy : s.warp_y_maps.length = s.num_cameras)
    (hm : s.blend_masks.length = s.num_cameras)
    (hg : s.gain_comp = some g) (hb : s.blender = some b) :
    stitch lib s frames output = some ⟨true,
      { s with
        gain_comp := some (gainAfter lib s frames g s.num_cameras),
        blender := some { (blenderFed lib s frames g b s.num_cameras) with
          calls := (blenderFed lib s frames g b s.num_cameras).calls ++ [.blend false] } },
      cropOrResize lib s (lib.blend (blenderFed lib s frames g b s.num_cameras) false),
      (List.range s.num_cameras).map Event.readFrame⟩ := by
  have hs : s = { s with gain_comp := some (gainAfter lib s frames g 0), blender := some b } := by
    rw [gainAfter_zero, ← hg, ← hb]
  have hfeed := stitchFeed_spec lib s frames g s.num_cameras 0 b []
    (by omega) (by omega) (by omega) (by omega)
  rw [← hs] at hfeed
  clear hs
  unfold stitch
  simp only [hinit, hlen, hfeed]
  simp only [cropOrResize, blenderFed, List.range_eq_range', Nat.zero_add, List.nil_append,
    Bool.not_true, Bool.false_eq_true, if_false, ne_eq, not_true_eq_false]
  split <;> rfl

theorem loadCalibrationLoop_eraseCalib (folder : Folder) :
    ∀ (k i : Nat) (s : SVStitcherSimple) (t : List Event),
      eraseCalib (loadCalibrationLoop folder k i s t).self = eraseCalib s := by
  intro k
  induction k with
  | zero => intro i s t; rfl
  | succ k ih =>
    intro i s t
    unfold loadCalibrationLoop
    split
    · rfl
    · rw [ih]; rfl

theorem loadCalibrationLoop_length (folder : Folder) :
    ∀ (k i : Nat) (s : SVStitcherSimple) (t : List Event),
      (loadCalibrationLoop folder k i s t).self.K_matrices.length = s.K_matrices.length ∧
      (loadCalibrationLoop folder k i s t).self.R_matrices.length = s.R_matrices.length := by
  intro k
  induction k with
  | zero => intro i s t; exact ⟨rfl, rfl⟩
  | succ k ih =>
    intro i s t
    unfold loadCalibrationLoop
    split
    · exact ⟨rfl, rfl⟩
    · have := ih (i + 1)
      simp only [this, List.length_set, and_self]

/-- The loop of `loadCalibration` from camera `i`, when the files of cameras
`i .. m-1` open and either `m = i + k` or the file of camera `m` does not. -/
theorem loadCalibrationLoop_spec (folder : Folder) (m : Nat) :
    ∀ (k i : Nat) (s : SVStitcherSimple) (t : List Event),
      i ≤ m → m ≤ i + k →
      (∀ j, i ≤ j → j < m → folder (.Camparam j) ≠ none) →
      (m < i + k → folder (.Camparam m) = none) →
      (loadCalibrationLoop folder k i s t).ret = decide (m = i + k) ∧
      (loadCalibrationLoop folder k i s t).trace
        = t ++ openCamparams i (if m = i + k then k else m + 1 - i) ∧
      (∀ j, i ≤ j → j < m → j < s.K_matrices.length →
        (loadCalibrationLoop folder k i s t).self.K_matrices[j]? = some (recordK folder j)) ∧
      (∀ j, j < i ∨ m ≤ j →
        (loadCalibrationLoop folder k i s t).self.K_matrices[j]? = s.K_matrices[j]?) ∧
      (∀ j, i ≤ j → j < m → j < s.R_matrices.length →
        (loadCalibrationLoop folder k i s t).self.R_matrices[j]? = some (recordR folder j)) ∧
      (∀ j, j < i ∨ m ≤ j →
        (loadCalibrationLoop folder k i s t).self.R_matrices[j]? = s.R_matrices[j]?) ∧
      (loadCalibrationLoop folder k i s t).self.focal_length
        = if i < m then recordFocal folder (m - 1) else s.focal_length := by
  intro k
  induction k with
  | zero =>
    intro i s t him hmk _ _
    have : m = i := by omega
    subst this
    simp [loadCalibrationLoop, openCamparams]
    constructor <;> (intro j h1 h2; omega)
  | succ k ih =>
    intro i s t him hmk hopen hstop
    unfold loadCalibrationLoop
    cases hf : folder (.Camparam i) with
    | none =>
      have hmi : m = i := by
        by_contra hne
        exact hopen i (Nat.le_refl _) (by omega) hf
      subst hmi
      simp [openCamparams]
      constructor <;> (intro j h1 h2; omega)
    | some fs =>
      have hlt : i < m := by
        by_contra hge
        have hmi : m = i := by omega
        subst hmi
        have := hstop (by omega)
        rw [hf] at this
        cases this
      have := ih (i + 1)
        { s with focal_length := readNode fs.FocalLength 0,
                 K_matrices := s.K_matrices.set i (readNode fs.Intrisic Mat.new),
                 R_matrices := s.R_matrices.set i (readNode fs.Rotation Mat.new) }
        (t ++ [.openFile (.Camparam i)]) (by omega) (by omega)
        (fun j h1 h2 => hopen j (by omega) h2) (fun h => hstop (by omega))
      obtain ⟨h1, h2, h3, h4, h5, h6, h7⟩ := this
      simp only at h1 h2 h3 h4 h5 h6 h7 ⊢
      refine ⟨?_, ?_, ?_, ?_, ?_, ?_, ?_⟩
      · rw [h1]; simp; omega
      · rw [h2]
        by_cases hm : m = i + (k + 1)
        · have hm1 : m = i + 1 + k := by omega
          rw [if_pos hm1, if_pos hm]
          simp [openCamparams, List.range'_succ]
        · have hm2 : ¬ m = i + 1 + k := by omega
          have : m + 1 - i = (m + 1 - (i + 1)) + 1 := by omega
          rw [if_neg hm2, if_neg hm, this]
          simp [openCamparams, List.range'_succ]
      · intro j hj1 hj2 hj3
        by_cases hji : j = i
        · subst hji
          rw [h4 j (Or.inl (by omega))]
          simp [List.getElem?_set, hj3, recordK, hf]
        · exact h3 j (by omega) hj2 (by simpa using hj3)
      · intro j hj
        rw [h4 j (by omega)]
        rw [List.getElem?_set_ne (by omega)]
      · intro j hj1 hj2 hj3
        by_cases hji : j = i
        · subst hji
          rw [h6 j (Or.inl (by omega))]
          simp [List.getElem?_set, hj3, recordR, hf]
        · exact h5 j (by omega) hj2 (by simpa using hj3)
      · intro j hj
        rw [h6 j (by omega)]
        rw [List.getElem?_set_ne (by omega)]
      · rw [h7]
        by_cases hm1 : i + 1 < m
        · simp [hm1, hlt]
        · have : m - 1 = i := by omega
          simp [hm1, hlt, this, recordFocal, hf]

theorem loadCalibration_frame (s : SVStitcherSimple) (folder : Folder) :
    eraseCalib (loadCalibration s folder).self = eraseCalib s ∧
    (loadCalibration s folder).self.K_matrices.length = s.num_cameras ∧
    (loadCalibration s folder).self.R_matrices.length = s.num_cameras := by
  unfold loadCalibration
  refine ⟨?_, ?_, ?_⟩
  · rw [loadCalibrationLoop_eraseCalib]; rfl
  · rw [(loadCalibrationLoop_length folder _ _ _ _).1]; exact vresize_length _ _ _
  · rw [(loadCalibrationLoop_length folder _ _ _ _).2]; exact vresize_length _ _ _

theorem setupWarpMapsLoop_frame (lib : Library) (radius : Scalar) (sz : Size) :
    ∀ (k i : Nat) (s s1 : SVStitcherSimple),
      setupWarpMapsLoop lib radius sz k i s = some s1 →
      eraseWarp s1 = eraseWarp s ∧
      s1.warp_x_maps.length = s.warp_x_maps.length ∧
      s1.warp_y_maps.length = s.warp_y_maps.length ∧
      s1.warp_corners.length = s.warp_corners.length ∧
      s1.warp_sizes.length = s.warp_sizes.length := by
  intro k
  induction k with
  | zero =>
    intro i s s1 h
    simp only [setupWarpMapsLoop, Option.some.injEq] at h
    subst h
    exact ⟨rfl, rfl, rfl, rfl, rfl⟩
  | succ k ih =>
    intro i s s1 h
    unfold setupWarpMapsLoop at h
    split at h
    · split at h
      · cases h
      · obtain ⟨h1, h2, h3, h4, h5⟩ := ih _ _ _ h
        refine ⟨h1.trans rfl, ?_, ?_, ?_, ?_⟩
        · simpa using h2
        · simpa using h3
        · simpa using h4
        · simpa using h5
    · cases h

theorem setupWarpMaps_frame (lib : Library) (cfg : SVConfig) (s s1 : SVStitcherSimple)
    (ok : Bool) (h : setupWarpMaps lib cfg s = some (ok, s1)) :
    ok = true ∧ eraseWarp s1 = eraseWarp s ∧
    s1.warp_x_maps.length = s.num_cameras ∧
    s1.warp_y_maps.length = s.num_cameras ∧
    s1.warp_corners.length = s.num_cameras ∧
    s1.warp_sizes.length = s.num_cameras := by
  unfold setupWarpMaps at h
  simp only [Option.map_eq_some', Prod.mk.injEq] at h
  obtain ⟨s5, h5, hok, hs⟩ := h
  subst hs
  obtain ⟨h1, h2, h3, h4, h6⟩ := setupWarpMapsLoop_frame lib _ _ _ _ _ _ h5
  refine ⟨hok.symm, h1.trans rfl, ?_, ?_, ?_, ?_⟩
  · rw [h2]; exact vresize_length _ _ _
  · rw [h3]; exact vresize_length _ _ _
  · rw [h4]; exact vresize_length _ _ _
  · rw [h6]; exact vresize_length _ _ _

theorem createOverlapMasksLoop_frame (lib : Library) (cfg : SVConfig) (radius : Scalar) :
    ∀ (k i : Nat) (s s1 : SVStitcherSimple),
      createOverlapMasksLoop lib cfg radius k i s = some s1 →
      eraseMasks s1 = eraseMasks s ∧ s1.blend_masks.length = s.blend_masks.length := by
  intro k
  induction k with
  | zero =>
    intro i s s1 h
    simp only [createOverlapMasksLoop, Option.some.injEq] at h
    subst h
    exact ⟨rfl, rfl⟩
  | succ k ih =>
    intro i s s1 h
    unfold createOverlapMasksLoop at h
    simp only at h
    split at h
    · split at h
      · cases h
      · obtain ⟨h1, h2⟩ := ih _ _ _ h
        exact ⟨h1.trans rfl, by simpa using h2⟩
    · cases h

theorem createOverlapMasks_frame (lib : Library) (cfg : SVConfig) (s s1 : SVStitcherSimple)
    (frames : List GpuMat) (ok : Bool)
    (h : createOverlapMasks lib cfg s frames = some (ok, s1)) :
    ok = true ∧ eraseMasks s1 = eraseMasks s ∧ s1.blend_masks.length = s.num_cameras := by
  unfold createOverlapMasks at h
  simp only [Option.map_eq_some', Prod.mk.injEq] at h
  obtain ⟨s2, h2, hok, hs⟩ := h
  subst hs
  obtain ⟨h1, h3⟩ := createOverlapMasksLoop_frame lib cfg _ _ _ _ _ h2
  exact ⟨hok.symm, h1.trans rfl, by rw [h3]; exact vresize_length _ _ _⟩

theorem setupOutputCrop_frame (lib : Library) (cfg : SVConfig) (s : SVStitcherSimple)
    (folder : Folder) :
    (setupOutputCrop lib cfg s folder).ret = true ∧
    eraseCrop (setupOutputCrop lib cfg s folder).self = eraseCrop s ∧
    (setupOutputCrop lib cfg s folder).trace = [.openFile .corner_warppts] := by
  unfold setupOutputCrop
  split <;> exact ⟨rfl, rfl, rfl⟩

/-- The ways `initFromFiles` can return. -/
theorem initFromFiles_cases (lib : Library) (cfg : SVConfig) (s : SVStitcherSimple)
    (folder : Folder) (frames : List GpuMat) (o : Outcome Bool)
    (h : initFromFiles lib cfg s folder frames = some o) :
    (s.is_init = true ∧ o = ⟨false, s, []⟩) ∨
    (s.is_init = false ∧ frames.length ≠ s.num_cameras ∧ o = ⟨false, s, []⟩) ∨
    (s.is_init = false ∧ frames.length = s.num_cameras ∧
      (loadCalibration s folder).ret = false ∧
      o = ⟨false, (loadCalibration s folder).self, (loadCalibration s folder).trace⟩) ∨
    (s.is_init = false ∧ frames.length = s.num_cameras ∧
      (loadCalibration s folder).ret = true ∧
      ∃ s_w s_m warped_samples t_s,
        setupWarpMaps lib cfg (loadCalibration s folder).self = some (true, s_w) ∧
        createOverlapMasks lib cfg s_w frames = some (true, s_m) ∧
        warpSamples lib { s_m with
            blender := some ⟨cfg.NUM_BLEND_BANDS,
              [.prepare s_m.warp_corners s_m.warp_sizes s_m.blend_masks]⟩,
            gain_comp := some ⟨s_m.num_cameras, []⟩ }
          frames s_m.num_cameras 0 (List.replicate s_m.num_cameras Mat.new) []
          = some (warped_samples, t_s) ∧
        o = ⟨true,
          { (setupOutputCrop lib cfg (withCollaborators cfg s_m warped_samples) folder).self
            with is_init := true },
          (loadCalibration s folder).trace ++ t_s ++
            (setupOutputCrop lib cfg (withCollaborators cfg s_m warped_samples) folder).trace⟩)
    := by
  unfold initFromFiles at h
  by_cases hi : s.is_init = true
  · left
    simp only [hi, if_true, Option.some.injEq] at h
    exact ⟨hi, h.symm⟩
  · have hi : s.is_init = false := by simpa using hi
    right
    by_cases hl : frames.length = s.num_cameras
    · right
      simp only [hi, Bool.false_eq_true, if_false, ne_eq, hl, not_true_eq_false] at h
      cases hc : (loadCalibration s folder).ret with
      | false =>
        left
        simp only [hc, Bool.not_false, if_true, Option.some.injEq] at h
        exact ⟨hi, hl, rfl, h.symm⟩
      | true =>
        right
        simp only [hc, Bool.not_true, Bool.false_eq_true, if_false] at h
        refine ⟨hi, hl, rfl, ?_⟩
        cases hw : setupWarpMaps lib cfg (loadCalibration s folder).self with
        | none => simp [hw] at h
        | some pw =>
          obtain ⟨ok_w, s_w⟩ := pw
          have hokw := (setupWarpMaps_frame lib cfg _ _ _ hw).1
          subst hokw
          simp only [hw, Bool.not_true, Bool.false_eq_true, if_false] at h
          cases hm : createOverlapMasks lib cfg s_w frames with
          | none => simp [hm] at h
          | some pm =>
            obtain ⟨ok_m, s_m⟩ := pm
            have hokm := (createOverlapMasks_frame lib cfg _ _ _ _ hm).1
            subst hokm
            simp only [hm, Bool.not_true, Bool.false_eq_true, if_false] at h
            split at h
            · cases h
            · rename_i warped_samples t_s hs
              have hret := (setupOutputCrop_frame lib cfg
                (withCollaborators cfg s_m warped_samples) folder).1
              refine ⟨s_w, s_m, warped_samples, t_s, rfl, hm, hs, ?_⟩
              simp only [withCollaborators] at hret ⊢
              simp only [List.nil_append, hret, Bool.not_true, Bool.false_eq_true, if_false,
                Option.some.injEq] at h
              exact h.symm
    · left
      simp only [hi, Bool.false_eq_true, if_false, ne_eq, hl, not_false_eq_true, if_true,
        Option.some.injEq] at h
      exact ⟨hi, hl, h.symm⟩

theorem inv_new (cfg : SVConfig) : Inv cfg (SVStitcherSimple.new cfg) := by
  constructor <;> simp [SVStitcherSimple.new]

/-- On an object satisfying the invariant, an accepted `stitch` call runs to
completion. -/
theorem stitch_of_inv (lib : Library) (cfg : SVConfig) (s : SVStitcherSimple)
    (frames : List GpuMat) (output : GpuMat) (hinv : Inv cfg s)
    (hinit : s.is_init = true) (hlen : frames.length = s.num_cameras) :
    ∃ g b, s.gain_comp = some g ∧ s.blender = some b ∧
      stitch lib s frames output = some ⟨true,
        { s with
          gain_comp := some (gainAfter lib s frames g s.num_cameras),
          blender := some { (blenderFed lib s frames g b s.num_cameras) with
            calls := (blenderFed lib s frames g b s.num_cameras).calls ++ [.blend false] } },
        cropOrResize lib s (lib.blend (blenderFed lib s frames g b s.num_cameras) false),
        (List.range s.num_cameras).map Event.readFrame⟩ := by
  have hg := hinv.gain_set hinit
  have hb := hinv.blender_set hinit
  cases hg1 : s.gain_comp with
  | none => exact absurd hg1 hg
  | some g =>
    cases hb1 : s.blender with
    | none => exact absurd hb1 hb
    | some b =>
      exact ⟨g, b, rfl, rfl, stitch_accepted lib s frames output g b hinit hlen
        (hinv.x_len hinit) (hinv.y_len hinit) (hinv.masks_len hinit) hg1 hb1⟩

theorem inv_stitch (lib : Library) (cfg : SVConfig) (s : SVStitcherSimple)
    (frames : List GpuMat) (output : GpuMat) (o : StitchOutcome) (hinv : Inv cfg s)
    (h : stitch lib s frames output = some o) : Inv cfg o.self := by
  by_cases hacc : s.is_init = true ∧ frames.length = s.num_cameras
  · obtain ⟨g, b, _, _, hst⟩ := stitch_of_inv lib cfg s frames output hinv hacc.1 hacc.2
    rw [hst] at h
    cases h
    exact ⟨hinv.cams, hinv.scale, hinv.K_len, hinv.R_len, hinv.x_len, hinv.y_len,
      hinv.corners_len, hinv.sizes_len, hinv.masks_len, fun _ => by simp, fun _ => by simp,
      hinv.crop_x, hinv.crop_y⟩
  · have hrej : s.is_init = false ∨ frames.length ≠ s.num_cameras := by
      by_cases hi : s.is_init = true
      · exact Or.inr fun hl => hacc ⟨hi, hl⟩
      · exact Or.inl (by simpa using hi)
    rw [stitch_rejected lib s frames output hrej] at h
    cases h
    exact hinv

/-- The ways `recomputeGain` can return. -/
theorem recomputeGain_cases (lib : Library) (s : SVStitcherSimple) (frames : List GpuMat)
    (o : Outcome Unit) (h : recomputeGain lib s frames = some o) :
    ((s.is_init = false ∨ s.gain_comp = none) ∧ o.self = s ∧ o.trace = []) ∨
    (s.is_init = true ∧ ∃ g warped_frames,
      s.gain_comp = some g ∧
      recomputeWarp lib s frames s.num_cameras 0 (List.replicate s.num_cameras Mat.new) []
        = some (warped_frames, o.trace) ∧
      o.self = { s with gain_comp := some { g with calls := g.calls ++
        [.recompute warped_frames s.warp_corners s.blend_masks] } }) := by
  unfold recomputeGain at h
  split at h
  · rename_i g hi hg
    right
    split at h
    · cases h
    · rename_i warped_frames t hw
      cases h
      exact ⟨hi, g, warped_frames, hg, hw, rfl⟩
  · rename_i hne
    left
    cases h
    refine ⟨?_, rfl, rfl⟩
    cases hi : s.is_init with
    | false => exact Or.inl rfl
    | true =>
      right
      cases hg : s.gain_comp with
      | none => rfl
      | some g => exact absurd hg (hne g hi)

theorem inv_recomputeGain (lib : Library) (cfg : SVConfig) (s : SVStitcherSimple)
    (frames : List GpuMat) (o : Outcome Unit) (hinv : Inv cfg s)
    (h : recomputeGain lib s frames = some o) : Inv cfg o.self := by
  rcases recomputeGain_cases lib s frames o h with ⟨_, hs, _⟩ | ⟨_, g, w, _, _, hs⟩
  · rw [hs]; exact hinv
  · rw [hs]
    exact ⟨hinv.cams, hinv.scale, hinv.K_len, hinv.R_len, hinv.x_len, hinv.y_len,
      hinv.corners_len, hinv.sizes_len, hinv.masks_len, hinv.blender_set, fun _ => by simp,
      hinv.crop_x, hinv.crop_y⟩

theorem eraseCalib_eq {a b : SVStitcherSimple} (h : eraseCalib a = eraseCalib b) :
    a.is_init = b.is_init ∧ a.num_cameras = b.num_cameras ∧
    a.scale_factor = b.scale_factor ∧
    a.warp_x_maps = b.warp_x_maps ∧ a.warp_y_maps = b.warp_y_maps ∧
    a.warp_corners = b.warp_corners ∧ a.warp_sizes = b.warp_sizes ∧
    a.blend_masks = b.blend_masks ∧ a.crop_warp_x = b.crop_warp_x ∧
    a.crop_warp_y = b.crop_warp_y ∧ a.output_size = b.output_size ∧
    a.blender = b.blender ∧ a.gain_comp = b.gain_comp := by
  cases a; cases b
  simp only [eraseCalib, SVStitcherSimple.mk.injEq] at h
  simp only [h, and_self]

theorem eraseWarp_eq {a b : SVStitcherSimple} (h : eraseWarp a = eraseWarp b) :
    a.is_init = b.is_init ∧ a.num_cameras = b.num_cameras ∧
    a.scale_factor = b.scale_factor ∧ a.focal_length = b.focal_length ∧
    a.K_matrices = b.K_matrices ∧ a.R_matrices = b.R_matrices ∧
    a.blend_masks = b.blend_masks ∧ a.crop_warp_x = b.crop_warp_x ∧
    a.crop_warp_y = b.crop_warp_y ∧ a.output_size = b.output_size ∧
    a.blender = b.blender ∧ a.gain_comp = b.gain_comp := by
  cases a; cases b
  simp only [eraseWarp, SVStitcherSimple.mk.injEq] at h
  simp only [h, and_self]

theorem eraseMasks_eq {a b : SVStitcherSimple} (h : eraseMasks a = eraseMasks b) :
    a.is_init = b.is_init ∧ a.num_cameras = b.num_cameras ∧
    a.scale_factor = b.scale_factor ∧ a.focal_length = b.focal_length ∧
    a.K_matrices = b.K_matrices ∧ a.R_matrices = b.R_matrices ∧
    a.warp_x_maps = b.warp_x_maps ∧ a.warp_y_maps = b.warp_y_maps ∧
    a.warp_corners = b.warp_corners ∧ a.warp_sizes = b.warp_sizes ∧
    a.crop_warp_x = b.crop_warp_x ∧
    a.crop_warp_y = b.crop_warp_y ∧ a.output_size = b.output_size ∧
    a.blender = b.blender ∧ a.gain_comp = b.gain_comp := by
  cases a; cases b
  simp only [eraseMasks, SVStitcherSimple.mk.injEq] at h
  simp only [h, and_self]

theorem eraseCrop_eq {a b : SVStitcherSimple} (h : eraseCrop a = eraseCrop b) :
    a.is_init = b.is_init ∧ a.num_cameras = b.num_cameras ∧
    a.scale_factor = b.scale_factor ∧ a.focal_length = b.focal_length ∧
    a.K_matrices = b.K_matrices ∧ a.R_matrices = b.R_matrices ∧
    a.warp_x_maps = b.warp_x_maps ∧ a.warp_y_maps = b.warp_y_maps ∧
    a.warp_corners = b.warp_corners ∧ a.warp_sizes = b.warp_sizes ∧
    a.blend_masks = b.blend_masks ∧
    a.blender = b.blender ∧ a.gain_comp = b.gain_comp := by
  cases a; cases b
  simp only [eraseCrop, SVStitcherSimple.mk.injEq] at h
  simp only [h, and_self]

/-- What a successful `initFromFiles` leaves behind, member by member. -/
theorem initFromFiles_success (lib : Library) (cfg : SVConfig) (s : SVStitcherSimple)
    (folder : Folder) (frames : List GpuMat) (o : Outcome Bool)
    (h : initFromFiles lib cfg s folder frames = some o) (hret : o.ret = true) :
    s.is_init = false ∧ frames.length = s.num_cameras ∧
    (loadCalibration s folder).ret = true ∧
    o.self.is_init = true ∧ o.self.num_cameras = s.num_cameras ∧
    o.self.scale_factor = s.scale_factor ∧
    o.self.focal_length = (loadCalibration s folder).self.focal_length ∧
    o.self.K_matrices = (loadCalibration s folder).self.K_matrices ∧
    o.self.R_matrices = (loadCalibration s folder).self.R_matrices ∧
    o.self.K_matrices.length = s.num_cameras ∧
    o.self.R_matrices.length = s.num_cameras ∧
    o.self.warp_x_maps.length = s.num_cameras ∧
    o.self.warp_y_maps.length = s.num_cameras ∧
    o.self.warp_corners.length = s.num_cameras ∧
    o.self.warp_sizes.length = s.num_cameras ∧
    o.self.blend_masks.length = s.num_cameras ∧
    o.self.blender = some ⟨cfg.NUM_BLEND_BANDS,
      [.prepare o.self.warp_corners o.self.warp_sizes o.self.blend_masks]⟩ ∧
    (∃ warped_samples, o.self.gain_comp = some ⟨s.num_cameras,
      [.init warped_samples o.self.warp_corners o.self.blend_masks]⟩) ∧
    o.self.crop_warp_x = (setupOutputCrop lib cfg s folder).self.crop_warp_x ∧
    o.self.crop_warp_y = (setupOutputCrop lib cfg s folder).self.crop_warp_y ∧
    o.self.output_size = (setupOutputCrop lib cfg s folder).self.output_size := by
  rcases initFromFiles_cases lib cfg s folder frames o h with
    ⟨_, ho⟩ | ⟨_, _, ho⟩ | ⟨_, _, _, ho⟩ | ⟨hi, hl, hc, s_w, s_m, w, t_s, hw, hm, _, ho⟩
  · rw [ho] at hret; cases hret
  · rw [ho] at hret; cases hret
  · rw [ho] at hret; cases hret
  · obtain ⟨c1, cK, cR⟩ := loadCalibration_frame s folder
    obtain ⟨_, c2, c3, _, _, _, _, _, c9, c10, _, _, _⟩ := eraseCalib_eq c1
    obtain ⟨_, w1, wx, wy, wc, ws⟩ := setupWarpMaps_frame lib cfg _ _ _ hw
    obtain ⟨_, w2, w3, w4, w5, w6, _, w8, w9, _, _, _⟩ := eraseWarp_eq w1
    obtain ⟨_, m1, ml⟩ := createOverlapMasks_frame lib cfg _ _ _ _ hm
    obtain ⟨_, m2, m3, m4, m5, m6, m7, m8, m9, m10, m11, m12, _, _, _⟩ := eraseMasks_eq m1
    have hnum : s_m.num_cameras = s.num_cameras := m2.trans (w2.trans c2)
    subst ho
    refine ⟨hi, hl, hc, rfl, ?_, ?_, ?_, ?_, ?_, ?_, ?_, ?_, ?_, ?_, ?_, ?_, ?_, ?_, ?_, ?_, ?_⟩
    all_goals
      simp only [setupOutputCrop, withCollaborators]
      cases folder .corner_warppts <;> simp only
    all_goals first
      | rfl
      | exact hnum
      | exact m3.trans (w3.trans c3)
      | exact m4.trans w4
      | exact m5.trans w5
      | exact m6.trans w6
      | exact (congrArg List.length (m5.trans w5)).trans cK
      | exact (congrArg List.length (m6.trans w6)).trans cR
      | exact (congrArg List.length m7).trans (wx.trans c2)
      | exact (congrArg List.length m8).trans (wy.trans c2)
      | exact (congrArg List.length m9).trans (wc.trans c2)
      | exact (congrArg List.length m10).trans (ws.trans c2)
      | exact ml.trans (w2.trans c2)
      | exact ⟨w, by rw [hnum]⟩
      | exact m11.trans (w8.trans c9)
      | exact m12.trans (w9.trans c10)

/-- The ways `initFromFiles` can return `false`. -/
theorem initFromFiles_failure (lib : Library) (cfg : SVConfig) (s : SVStitcherSimple)
    (folder : Folder) (frames : List GpuMat) (o : Outcome Bool)
    (h : initFromFiles lib cfg s folder frames = some o) (hret : o.ret = false) :
    ((s.is_init = true ∨ frames.length ≠ s.num_cameras) ∧ o.self = s ∧ o.trace = []) ∨
    (s.is_init = false ∧ frames.length = s.num_cameras ∧
      (loadCalibration s folder).ret = false ∧
      o.self = (loadCalibration s folder).self ∧
      o.trace = (loadCalibration s folder).trace) := by
  rcases initFromFiles_cases lib cfg s folder frames o h with
    ⟨hi, ho⟩ | ⟨_, hl, ho⟩ | ⟨hi, hl, hc, ho⟩ | ⟨_, _, _, _, _, _, _, _, _, _, ho⟩
  · subst ho; exact Or.inl ⟨Or.inl hi, rfl, rfl⟩
  · subst ho; exact Or.inl ⟨Or.inr hl, rfl, rfl⟩
  · subst ho; exact Or.inr ⟨hi, hl, hc, rfl, rfl⟩
  · subst ho; cases hret

theorem inv_initFromFiles (lib : Library) (cfg : SVConfig) (s : SVStitcherSimple)
    (folder : Folder) (frames : List GpuMat) (o : Outcome Bool) (hinv : Inv cfg s)
    (h : initFromFiles lib cfg s folder frames = some o) : Inv cfg o.self := by
  cases hret : o.ret with
  | false =>
    rcases initFromFiles_failure lib cfg s folder frames o h hret with
      ⟨_, hs, _⟩ | ⟨hi, _, _, hs, _⟩
    · rw [hs]; exact hinv
    · obtain ⟨e1, e2, e3, _, _, _, _, _, e9, e10, _, _, _⟩ :=
        eraseCalib_eq (loadCalibration_frame s folder).1
      rw [hs]
      have hni : (loadCalibration s folder).self.is_init = true → False := by
        rw [e1, hi]; intro hc; cases hc
      exact ⟨e2.trans hinv.cams, e3.trans hinv.scale,
        fun hc => (hni hc).elim, fun hc => (hni hc).elim, fun hc => (hni hc).elim,
        fun hc => (hni hc).elim, fun hc => (hni hc).elim, fun hc => (hni hc).elim,
        fun hc => (hni hc).elim, fun hc => (hni hc).elim, fun hc => (hni hc).elim,
        fun _ => e9.trans (hinv.crop_x hi), fun _ => e10.trans (hinv.crop_y hi)⟩
  | true =>
    obtain ⟨_, _, _, h1, h2, h3, _, _, _, h4, h5, h6, h7, h8, h9, h10, h11, ⟨w, h12⟩, _⟩ :=
      initFromFiles_success lib cfg s folder frames o h hret
    have hni : o.self.is_init = false → False := by
      rw [h1]; intro hc; cases hc
    exact ⟨h2.trans hinv.cams, h3.trans hinv.scale,
      fun _ => h4.trans h2.symm, fun _ => h5.trans h2.symm, fun _ => h6.trans h2.symm,
      fun _ => h7.trans h2.symm, fun _ => h8.trans h2.symm, fun _ => h9.trans h2.symm,
      fun _ => h10.trans h2.symm, fun _ => by rw [h11]; simp, fun _ => by rw [h12]; simp,
      fun hc => (hni hc).elim, fun hc => (hni hc).elim⟩

theorem inv_step (lib : Library) (cfg : SVConfig) (s s1 : SVStitcherSimple) (c : Call)
    (hinv : Inv cfg s) (h : step lib cfg s c = some s1) : Inv cfg s1 := by
  cases c with
  | initFromFiles folder frames =>
    simp only [step, Option.map_eq_some'] at h
    obtain ⟨o, ho, rfl⟩ := h
    exact inv_initFromFiles lib cfg s folder frames o hinv ho
  | stitch frames output =>
    simp only [step, Option.map_eq_some'] at h
    obtain ⟨o, ho, rfl⟩ := h
    exact inv_stitch lib cfg s frames output o hinv ho
  | recomputeGain frames =>
    simp only [step, Option.map_eq_some'] at h
    obtain ⟨o, ho, rfl⟩ := h
    exact inv_recomputeGain lib cfg s frames o hinv ho

theorem inv_run (lib : Library) (cfg : SVConfig) :
    ∀ (calls : List Call) (s s1 : SVStitcherSimple),
      Inv cfg s → run lib cfg s calls = some s1 → Inv cfg s1 := by
  intro calls
  induction calls with
  | nil =>
    intro s s1 hinv h
    simp only [run, Option.some.injEq] at h
    exact h ▸ hinv
  | cons c cs ih =>
    intro s s1 hinv h
    simp only [run, Option.bind_eq_some] at h
    obtain ⟨s2, h2, h3⟩ := h
    exact ih s2 s1 (inv_step lib cfg s s2 c hinv h2) h3

/-- Every state the object can be in satisfies the class invariant. -/
theorem reachable_inv (lib : Library) (cfg : SVConfig) (s : SVStitcherSimple)
    (h : Reachable lib cfg s) : Inv cfg s := by
  obtain ⟨calls, hc⟩ := h
  exact inv_run lib cfg calls _ s (inv_new cfg) hc

theorem run_append (lib : Library) (cfg : SVConfig) :
    ∀ (cs ds : List Call) (s : SVStitcherSimple),
      run lib cfg s (cs ++ ds) = (run lib cfg s cs).bind fun s1 => run lib cfg s1 ds := by
  intro cs
  induction cs with
  | nil => intro ds s; simp [run]
  | cons c cs ih =>
    intro ds s
    simp only [List.cons_append, run]
    cases step lib cfg s c with
    | none => rfl
    | some s2 => simp [ih]

theorem reachable_run (lib : Library) (cfg : SVConfig) (s s1 : SVStitcherSimple)
    (calls : List Call) (h : Reachable lib cfg s) (hr : run lib cfg s calls = some s1) :
    Reachable lib cfg s1 := by
  obtain ⟨cs, hc⟩ := h
  exact ⟨cs ++ calls, by rw [run_append, hc]; exact hr⟩

theorem eraseCollab_eq {a b : SVStitcherSimple} (h : eraseCollab a = eraseCollab b) :
    a.is_init = b.is_init ∧ a.num_cameras = b.num_cameras ∧
    a.scale_factor = b.scale_factor ∧ SameGeometry a b := by
  cases a; cases b
  simp only [eraseCollab, SVStitcherSimple.mk.injEq] at h
  simp only [SameGeometry, h, and_self]

theorem stitchFeed_frame (lib : Library) (frames : List GpuMat) :
    ∀ (k i : Nat) (s s1 : SVStitcherSimple) (t t1 : List Event),
      stitchFeed lib frames k i s t = some (s1, t1) →
      eraseCollab s1 = eraseCollab s ∧ (∀ f, Event.openFile f ∈ t1 → Event.openFile f ∈ t) := by
  intro k
  induction k with
  | zero =>
    intro i s s1 t t1 h
    simp only [stitchFeed, Option.some.injEq, Prod.mk.injEq] at h
    obtain ⟨rfl, rfl⟩ := h
    exact ⟨rfl, fun _ hf => hf⟩
  | succ k ih =>
    intro i s s1 t t1 h
    unfold stitchFeed at h
    split at h
    · obtain ⟨h1, h2⟩ := ih _ _ _ _ _ h
      refine ⟨h1.trans rfl, fun f hf => ?_⟩
      have := h2 f hf
      simpa using this
    · cases h

/-- Any completed `stitch` call changes at most the collaborators and opens no
file. -/
theorem stitch_frame (lib : Library) (s : SVStitcherSimple) (frames : List GpuMat)
    (output : GpuMat) (o : StitchOutcome) (h : stitch lib s frames output = some o) :
    eraseCollab o.self = eraseCollab s ∧ (∀ f, Event.openFile f ∉ o.trace) := by
  unfold stitch at h
  split at h
  · cases h; exact ⟨rfl, fun _ hf => by cases hf⟩
  · split at h
    · cases h; exact ⟨rfl, fun _ hf => by cases hf⟩
    · split at h
      · cases h
      · rename_i s1 t hfeed
        obtain ⟨h1, h2⟩ := stitchFeed_frame lib frames _ _ _ _ _ _ hfeed
        have hnil : ∀ f, Event.openFile f ∉ t := fun f hf => by cases h2 f hf
        split at h
        · cases h
        · dsimp only at h
          split at h <;>
            (cases h; exact ⟨(show eraseCollab _ = eraseCollab s1 from rfl).trans h1, hnil⟩)

theorem recomputeWarp_spec (lib : Library) (s : SVStitcherSimple) (frames : List GpuMat) :
    ∀ (k i : Nat) (w : List GpuMat) (t : List Event),
      i + k ≤ frames.length → i + k ≤ s.warp_x_maps.length →
      i + k ≤ s.warp_y_maps.length →
      ∃ w1, w1.length = w.length ∧
        recomputeWarp lib s frames k i w t
          = some (w1, t ++ (List.range' i k).map Event.readFrame) := by
  intro k
  induction k with
  | zero => intro i w t _ _ _; exact ⟨w, rfl, by simp [recomputeWarp]⟩
  | succ k ih =>
    intro i w t hf hx hy
    have h1 : i < frames.length := by omega
    have h2 : i < s.warp_x_maps.length := by omega
    have h3 : i < s.warp_y_maps.length := by omega
    simp only [recomputeWarp, List.getElem?_eq_getElem, h1, h2, h3]
    obtain ⟨w1, hw1, hr⟩ := ih (i + 1)
      (w.set i (lib.remap (lib.resize frames[i] s.scale_factor s.scale_factor .INTER_LINEAR)
        s.warp_x_maps[i] s.warp_y_maps[i] .INTER_LINEAR .BORDER_CONSTANT))
      (t ++ [Event.readFrame i]) (by omega) (by omega) (by omega)
    refine ⟨w1, by simpa using hw1, ?_⟩
    rw [hr]
    simp [List.range'_succ]

theorem recomputeWarp_trace (lib : Library) (s : SVStitcherSimple) (frames : List GpuMat) :
    ∀ (k i : Nat) (w w1 : List GpuMat) (t t1 : List Event),
      recomputeWarp lib s frames k i w t = some (w1, t1) →
      t1 = t ++ (List.range' i k).map Event.readFrame := by
  intro k
  induction k with
  | zero =>
    intro i w w1 t t1 h
    simp only [recomputeWarp, Option.some.injEq, Prod.mk.injEq] at h
    simp [h.2]
  | succ k ih =>
    intro i w w1 t t1 h
    unfold recomputeWarp at h
    split at h
    · rw [ih _ _ _ _ _ h]
      simp [List.range'_succ]
    · cases h

/-- Any completed `recomputeGain` call changes at most the gain compensator and
opens no file. -/
theorem recomputeGain_frame (lib : Library) (s : SVStitcherSimple) (frames : List GpuMat)
    (o : Outcome Unit) (h : recomputeGain lib s frames = some o) :
    eraseCollab o.self = eraseCollab s ∧ o.self.blender = s.blender ∧
    (∀ f, Event.openFile f ∉ o.trace) := by
  rcases recomputeGain_cases lib s frames o h with ⟨_, hs, ht⟩ | ⟨_, g, w, _, hw, hs⟩
  · rw [hs, ht]; exact ⟨rfl, rfl, fun _ hf => by cases hf⟩
  · rw [hs]
    refine ⟨rfl, rfl, fun f hf => ?_⟩
    rw [recomputeWarp_trace lib s frames _ _ _ _ _ _ hw] at hf
    simp at hf

/-- A call on an initialised object changes at most the collaborators. -/
theorem step_ready_frame (lib : Library) (cfg : SVConfig) (s s1 : SVStitcherSimple)
    (c : Call) (hinit : s.is_init = true) (h : step lib cfg s c = some s1) :
    eraseCollab s1 = eraseCollab s := by
  cases c with
  | initFromFiles folder frames =>
    simp only [step, initFromFiles, hinit, if_true, Option.map_some', Option.some.injEq] at h
    rw [← h]
  | stitch frames output =>
    simp only [step, Option.map_eq_some'] at h
    obtain ⟨o, ho, rfl⟩ := h
    exact (stitch_frame lib s frames output o ho).1
  | recomputeGain frames =>
    simp only [step, Option.map_eq_some'] at h
    obtain ⟨o, ho, rfl⟩ := h
    exact (recomputeGain_frame lib s frames o ho).1

theorem run_ready_frame (lib : Library) (cfg : SVConfig) :
    ∀ (calls : List Call) (s s1 : SVStitcherSimple),
      s.is_init = true → run lib cfg s calls = some s1 →
      eraseCollab s1 = eraseCollab s := by
  intro calls
  induction calls with
  | nil =>
    intro s s1 _ h
    simp only [run, Option.some.injEq] at h
    rw [h]
  | cons c cs ih =>
    intro s s1 hinit h
    simp only [run, Option.bind_eq_some] at h
    obtain ⟨s2, h2, h3⟩ := h
    have e2 := step_ready_frame lib cfg s s2 c hinit h2
    have hi2 : s2.is_init = true := (eraseCollab_eq e2).1.trans hinit
    exact (ih s2 s1 hi2 h3).trans e2

theorem sampleReady_reachable : Reachable sampleLib sampleCfg sampleReady :=
  ⟨[.initFromFiles sampleFolder sampleFrames], rfl⟩

theorem exists_first_unopenable (folder : Folder) :
    ∀ n : Nat, ∃ m, m ≤ n ∧ (∀ j, j < m → folder (.Camparam j) ≠ none) ∧
      (m < n → folder (.Camparam m) = none) := by
  intro n
  induction n with
  | zero => exact ⟨0, Nat.le_refl _, fun j hj => by omega, fun h => by omega⟩
  | succ n ih =>
    obtain ⟨m, hm, hopen, hstop⟩ := ih
    by_cases hlt : m < n
    · exact ⟨m, by omega, hopen, fun _ => hstop hlt⟩
    · have hmn : m = n := by omega
      subst hmn
      cases hf : folder (.Camparam m) with
      | none => exact ⟨m, by omega, hopen, fun _ => hf⟩
      | some fs =>
        refine ⟨m + 1, Nat.le_refl _, fun j hj => ?_, fun h => by omega⟩
        by_cases hj2 : j < m
        · exact hopen j hj2
        · have : j = m := by omega
          subst this
          rw [hf]; exact fun hc => by cases hc

/-- The result of `loadCalibration` when the files of cameras `0 .. m-1` open and
either `m` is the camera count or the file of camera `m` does not open. -/
theorem loadCalibration_spec (s : SVStitcherSimple) (folder : Folder) (m : Nat)
    (hm : m ≤ s.num_cameras)
    (hopen : ∀ j, j < m → folder (.Camparam j) ≠ none)
    (hstop : m < s.num_cameras → folder (.Camparam m) = none) :
    (loadCalibration s folder).ret = decide (m = s.num_cameras) ∧
    (loadCalibration s folder).trace
      = openCamparams 0 (if m = s.num_cameras then s.num_cameras else m + 1) ∧
    (∀ j, j < m → (loadCalibration s folder).self.K_matrices[j]? = some (recordK folder j)) ∧
    (∀ j, m ≤ j → (loadCalibration s folder).self.K_matrices[j]?
      = (vresize s.K_matrices s.num_cameras Mat.new)[j]?) ∧
    (∀ j, j < m → (loadCalibration s folder).self.R_matrices[j]? = some (recordR folder j)) ∧
    (∀ j, m ≤ j → (loadCalibration s folder).self.R_matrices[j]?
      = (vresize s.R_matrices s.num_cameras Mat.new)[j]?) ∧
    (loadCalibration s folder).self.focal_length
      = if 0 < m then recordFocal folder (m - 1) else s.focal_length := by
  unfold loadCalibration
  obtain ⟨h1, h2, h3, h4, h5, h6, h7⟩ := loadCalibrationLoop_spec folder m s.num_cameras 0
    { s with K_matrices := vresize s.K_matrices s.num_cameras Mat.new,
             R_matrices := vresize s.R_matrices s.num_cameras Mat.new } []
    (Nat.zero_le _) (by omega) (fun j _ hj => hopen j hj) (fun h => hstop (by omega))
  simp only [Nat.zero_add, List.nil_append, Nat.sub_zero] at h1 h2 h3 h4 h5 h6 h7
  refine ⟨h1, h2, ?_, ?_, ?_, ?_, h7⟩
  · intro j hj
    exact h3 j (Nat.zero_le _) hj (by rw [vresize_length]; omega)
  · intro j hj
    exact h4 j (Or.inr hj)
  · intro j hj
    exact h5 j (Nat.zero_le _) hj (by rw [vresize_length]; omega)
  · intro j hj
    exact h6 j (Or.inr hj)

theorem loadCalibration_false_iff (s : SVStitcherSimple) (folder : Folder) :
    (loadCalibration s folder).ret = false ↔
      ∃ i, i < s.num_cameras ∧ folder (.Camparam i) = none := by
  obtain ⟨m, hm, hopen, hstop⟩ := exists_first_unopenable folder s.num_cameras
  have h1 := (loadCalibration_spec s folder m hm hopen hstop).1
  constructor
  · intro hf
    rw [hf] at h1
    have hne : m ≠ s.num_cameras := by simpa using h1.symm
    have hlt : m < s.num_cameras := by omega
    exact ⟨m, hlt, hstop hlt⟩
  · rintro ⟨i, hi, hfi⟩
    rw [h1]
    have hne : m ≠ s.num_cameras := by
      intro he
      exact hopen i (by omega) hfi
    simpa using hne

theorem recomputeGain_uninitialized (lib : Library) (s : SVStitcherSimple)
    (frames : List GpuMat) (h : s.is_init = false) :
    recomputeGain lib s frames = some ⟨(), s, []⟩ := by
  unfold recomputeGain
  split
  · rename_i hi _
    rw [h] at hi; cases hi
  · rfl

/-- The output of every successful `stitch` after initialisation is computed from
the blended panorama with the crop maps and output size the initialisation left. -/
theorem stitch_output_after_init (lib : Library) (cfg : SVConfig)
    (s0 s1 : SVStitcherSimple) (calls : List Call) (frames : List GpuMat)
    (output : GpuMat) (o1 : StitchOutcome) (hinv : Inv cfg s0) (hinit : s0.is_init = true)
    (hrun : run lib cfg s0 calls = some s1)
    (hst : stitch lib s1 frames output = some o1) (hret : o1.ret = true) :
    ∃ b, o1.self.blender = some { b with calls := b.calls ++ [.blend false] } ∧
      o1.output = cropOrResize lib s0 (lib.blend b false) := by
  have hinv1 := inv_run lib cfg calls s0 s1 hinv hrun
  obtain ⟨e1, _, _, _, _, _, _, _, _, _, _, e9, e10, e11⟩ :=
    eraseCollab_eq (run_ready_frame lib cfg calls s0 s1 hinit hrun)
  have hinit1 : s1.is_init = true := e1.trans hinit
  by_cases hl : frames.length = s1.num_cameras
  · obtain ⟨g, b, _, _, hacc⟩ := stitch_of_inv lib cfg s1 frames output hinv1 hinit1 hl
    rw [hacc] at hst
    cases hst
    refine ⟨blenderFed lib s1 frames g b s1.num_cameras, rfl, ?_⟩
    simp only [cropOrResize, e9, e10, e11]
  · rw [stitch_rejected lib s1 frames output (Or.inr hl)] at hst
    cases hst
    cases hret

theorem initFromFilesSteps_outcome (lib : Library) (cfg : SVConfig) (s : SVStitcherSimple)
    (folder : Folder) (frames : List GpuMat) :
    (initFromFilesSteps lib cfg s folder frames).map (·.1)
      = initFromFiles lib cfg s folder frames := by
  unfold initFromFilesSteps initFromFiles
  split
  · rfl
  · split
    · rfl
    · dsimp only
      split
      · rfl
      · split
        · rfl
        · split
          · rfl
          · split
            · rfl
            · split
              · rfl
              · split
                · rfl
                · split <;> rfl

theorem allValid_iff (frames : Nat → Frame) :
    ∀ (k i : Nat), allValid frames k i = true ↔
      ∀ j, i ≤ j → j < i + k → (frames j).gpuFrame.empty = false := by
  intro k
  induction k with
  | zero => intro i; simp [allValid]; intro j h1 h2; omega
  | succ k ih =>
    intro i
    unfold allValid
    cases he : (frames i).gpuFrame.empty with
    | true =>
      simp only [if_true, Bool.false_eq_true, false_iff, not_forall]
      exact ⟨i, Nat.le_refl _, by omega, by simp [he]⟩
    | false =>
      simp only [Bool.false_eq_true, if_false, ih]
      constructor
      · intro h j h1 h2
        by_cases hji : j = i
        · rw [hji]; exact he
        · exact h j (by omega) (by omega)
      · intro h j h1 h2
        exact h j (by omega) (by omega)

theorem gpuFrames_eq (frames : Nat → Frame) :
    ∀ (k i : Nat) (acc : List GpuMat), gpuFrames frames k i acc
      = acc ++ (List.range' i k).map fun j => (frames j).gpuFrame := by
  intro k
  induction k with
  | zero => intro i acc; simp [gpuFrames]
  | succ k ih =>
    intro i acc
    simp [gpuFrames, ih, List.range'_succ]

theorem gpuFrames_range (frames : Nat → Frame) (n : Nat) :
    gpuFrames frames n 0 [] = (List.range n).map fun j => (frames j).gpuFrame := by
  rw [gpuFrames_eq, List.range_eq_range']
  rfl

/-- The ways one pass of the loop can go, with the events of each. -/
theorem loopPass_cases (lib : Library) (cfg : SVConfig) (tps : Int) (app : SVAppSimple)
    (loc : RunLocals) (inp : LoopInput) (r : PassResult)
    (h : SVAppSimple.loopPass lib cfg tps app loc inp = some r) :
    (r.events = [] ∧ r.locals = loc ∧ r.control = .done) ∨
    (r.events = [.shouldClose true] ∧ r.locals = loc ∧ r.control = .done) ∨
    (inp.captureOk = false ∧
      r.events = [.shouldClose false, .capture false, .sleep 1] ∧ r.locals = loc) ∨
    (inp.captureOk = true ∧ allValid inp.captured cfg.NUM_CAMERAS 0 = false ∧
      r.events = [.shouldClose false, .capture true, .sleep 1] ∧ r.locals = loc) ∨
    (inp.captureOk = true ∧ allValid inp.captured cfg.NUM_CAMERAS 0 = true ∧
      r.events = [.shouldClose false, .capture true,
        .stitch (gpuFrames inp.captured cfg.NUM_CAMERAS 0 []) false] ∧ r.locals = loc) ∨
    (inp.captureOk = true ∧ allValid inp.captured cfg.NUM_CAMERAS 0 = true ∧
      ¬ (inp.now - loc.last_gain_update ≥ (cfg.GAIN_UPDATE_INTERVAL : Int) * tps) ∧
      r.locals.last_gain_update = loc.last_gain_update ∧
      ∃ img ret tail, r.events = [.shouldClose false, .capture true,
        .stitch (gpuFrames inp.captured cfg.NUM_CAMERAS 0 []) true, .now inp.now,
        .render img ret] ++ tail ∧ (tail = [] ∨ tail = [.sleep 3])) ∨
    (inp.captureOk = true ∧ allValid inp.captured cfg.NUM_CAMERAS 0 = true ∧
      inp.now - loc.last_gain_update ≥ (cfg.GAIN_UPDATE_INTERVAL : Int) * tps ∧
      r.locals.last_gain_update = inp.now ∧
      ∃ img ret tail, r.events = [.shouldClose false, .capture true,
        .stitch (gpuFrames inp.captured cfg.NUM_CAMERAS 0 []) true, .now inp.now,
        .recomputeGain (gpuFrames inp.captured cfg.NUM_CAMERAS 0 []) inp.now,
        .render img ret] ++ tail ∧ (tail = [] ∨ tail = [.sleep 3])) := by
  unfold SVAppSimple.loopPass at h
  split at h
  · cases h; exact Or.inl ⟨rfl, rfl, rfl⟩
  · split at h
    · cases h; exact Or.inr (Or.inl ⟨rfl, rfl, rfl⟩)
    · dsimp only at h
      split at h
      · rename_i hc
        cases h
        exact Or.inr (Or.inr (Or.inl ⟨by simpa using hc, rfl, rfl⟩))
      · rename_i hc
        have hc1 : inp.captureOk = true := by simpa using hc
        split at h
        · rename_i hv
          cases h
          exact Or.inr (Or.inr (Or.inr (Or.inl ⟨hc1, by simpa using hv, rfl, rfl⟩)))
        · rename_i hv
          have hv1 : allValid inp.captured cfg.NUM_CAMERAS 0 = true := by simpa using hv
          split at h
          · cases h
          · split at h
            · cases h
            · split at h
              · cases h
                exact Or.inr (Or.inr (Or.inr (Or.inr (Or.inl ⟨hc1, hv1, rfl, rfl⟩))))
              · split at h
                · cases h
                · rename_i app3 loc3 ev_gain hg
                  unfold gainUpdate at hg
                  split at hg
                  · rename_i hcond
                    split at hg
                    · cases hg
                    · split at hg
                      · cases hg
                      · simp only [Option.some.injEq, Prod.mk.injEq] at hg
                        obtain ⟨_, hl3, hev⟩ := hg
                        subst hl3
                        subst hev
                        refine Or.inr (Or.inr (Or.inr (Or.inr (Or.inr (Or.inr
                          ⟨hc1, hv1, hcond, ?_, ?_⟩)))))
                        · split at h
                          · cases h; rfl
                          · cases h; dsimp only; split <;> rfl
                        · split at h
                          · cases h; exact ⟨_, _, [], rfl, Or.inl rfl⟩
                          · cases h; exact ⟨_, _, [.sleep 3], rfl, Or.inr rfl⟩
                  · rename_i hcond
                    simp only [Option.some.injEq, Prod.mk.injEq] at hg
                    obtain ⟨_, hl3, hev⟩ := hg
                    subst hl3
                    subst hev
                    refine Or.inr (Or.inr (Or.inr (Or.inr (Or.inr (Or.inl
                      ⟨hc1, hv1, hcond, ?_, ?_⟩)))))
                    · split at h
                      · cases h; rfl
                      · cases h; dsimp only; split <;> rfl
                    · split at h
                      · cases h; exact ⟨_, _, [], rfl, Or.inl rfl⟩
                      · cases h; exact ⟨_, _, [.sleep 3], rfl, Or.inr rfl⟩

/-- One pass calls `stitch` only on a successful capture of `NUM_CAMERAS`
non-empty frames, with these frames in camera order; otherwise it calls neither
`stitch`, `recomputeGain` nor `render`. -/
theorem loopPass_filter (lib : Library) (cfg : SVConfig) (tps : Int) (app : SVAppSimple)
    (loc : RunLocals) (inp : LoopInput) (r : PassResult)
    (h : SVAppSimple.loopPass lib cfg tps app loc inp = some r) :
    (∀ fr ret, AppEvent.stitch fr ret ∈ r.events →
      inp.captureOk = true ∧
      (∀ i, i < cfg.NUM_CAMERAS → (inp.captured i).gpuFrame.empty = false) ∧
      fr = (List.range cfg.NUM_CAMERAS).map (fun i => (inp.captured i).gpuFrame) ∧
      fr.length = cfg.NUM_CAMERAS) ∧
    ((inp.captureOk = false ∨
        ∃ i, i < cfg.NUM_CAMERAS ∧ (inp.captured i).gpuFrame.empty = true) →
      (∀ fr ret, AppEvent.stitch fr ret ∉ r.events) ∧
      (∀ fr t, AppEvent.recomputeGain fr t ∉ r.events) ∧
      (∀ img ret, AppEvent.render img ret ∉ r.events)) := by
  have hvalid : allValid inp.captured cfg.NUM_CAMERAS 0 = true →
      ∀ i, i < cfg.NUM_CAMERAS → (inp.captured i).gpuFrame.empty = false := by
    intro hv i hi
    exact (allValid_iff inp.captured cfg.NUM_CAMERAS 0).mp hv i (Nat.zero_le _) (by omega)
  have hbad : (inp.captureOk = false ∨
        ∃ i, i < cfg.NUM_CAMERAS ∧ (inp.captured i).gpuFrame.empty = true) →
      ¬ (inp.captureOk = true ∧ allValid inp.captured cfg.NUM_CAMERAS 0 = true) := by
    rintro (hc | ⟨i, hi, he⟩) ⟨hc1, hv⟩
    · rw [hc] at hc1; cases hc1
    · rw [hvalid hv i hi] at he; cases he
  have hfr : gpuFrames inp.captured cfg.NUM_CAMERAS 0 []
      = (List.range cfg.NUM_CAMERAS).map (fun i => (inp.captured i).gpuFrame) :=
    gpuFrames_range inp.captured cfg.NUM_CAMERAS
  rcases loopPass_cases lib cfg tps app loc inp r h with
    ⟨he, _⟩ | ⟨he, _⟩ | ⟨_, he, _⟩ | ⟨_, _, he, _⟩ | ⟨hc, hv, he, _⟩ |
    ⟨hc, hv, _, _, img, ret, tail, he, ht⟩ | ⟨hc, hv, _, _, img, ret, tail, he, ht⟩
  · rw [he]; simp
  · rw [he]; simp
  · rw [he]; simp
  · rw [he]; simp
  · rw [he]
    refine ⟨fun fr ret hm => ?_, fun hb => absurd ⟨hc, hv⟩ (hbad hb)⟩
    simp only [List.mem_cons, List.mem_singleton, AppEvent.stitch.injEq, reduceCtorEq,
      false_or, List.mem_nil_iff, or_false] at hm
    rw [hm.1, hfr]
    exact ⟨hc, hvalid hv, rfl, by simp⟩
  · rw [he]
    refine ⟨fun fr ret hm => ?_, fun hb => absurd ⟨hc, hv⟩ (hbad hb)⟩
    have hfr2 : fr = gpuFrames inp.captured cfg.NUM_CAMERAS 0 [] := by
      rcases ht with rfl | rfl <;> exact (by simpa using hm : _ ∧ _).1
    rw [hfr2, hfr]
    exact ⟨hc, hvalid hv, rfl, by simp⟩
  · rw [he]
    refine ⟨fun fr ret hm => ?_, fun hb => absurd ⟨hc, hv⟩ (hbad hb)⟩
    have hfr2 : fr = gpuFrames inp.captured cfg.NUM_CAMERAS 0 [] := by
      rcases ht with rfl | rfl <;> exact (by simpa using hm : _ ∧ _).1
    rw [hfr2, hfr]
    exact ⟨hc, hvalid hv, rfl, by simp⟩

/-- One pass calls `recomputeGain` exactly when `stitch` returned `true` and the
interval has elapsed at the clock reading; it then stores the reading. -/
theorem loopPass_gain (lib : Library) (cfg : SVConfig) (tps : Int) (app : SVAppSimple)
    (loc : RunLocals) (inp : LoopInput) (r : PassResult)
    (h : SVAppSimple.loopPass lib cfg tps app loc inp = some r) :
    ((∃ fr t, AppEvent.recomputeGain fr t ∈ r.events) ↔
      ((∃ fr, AppEvent.stitch fr true ∈ r.events) ∧
        inp.now - loc.last_gain_update ≥ (cfg.GAIN_UPDATE_INTERVAL : Int) * tps)) ∧
    (∀ fr t, AppEvent.recomputeGain fr t ∈ r.events →
      t = inp.now ∧ r.locals.last_gain_update = inp.now ∧
      ∃ rest, r.events = [.shouldClose false, .capture true, .stitch fr true, .now inp.now,
        .recomputeGain fr inp.now] ++ rest) ∧
    ((∀ fr t, AppEvent.recomputeGain fr t ∉ r.events) →
      r.locals.last_gain_update = loc.last_gain_update) ∧
    ((gainTimes r.events = [] ∧ r.locals.last_gain_update = loc.last_gain_update) ∨
      (gainTimes r.events = [inp.now] ∧ r.locals.last_gain_update = inp.now ∧
        inp.now - loc.last_gain_update ≥ (cfg.GAIN_UPDATE_INTERVAL : Int) * tps)) := by
  rcases loopPass_cases lib cfg tps app loc inp r h with
    ⟨he, hl, _⟩ | ⟨he, hl, _⟩ | ⟨_, he, hl⟩ | ⟨_, _, he, hl⟩ | ⟨_, _, he, hl⟩ |
    ⟨_, _, hcond, hl, img, ret, tail, he, ht⟩ | ⟨_, _, hcond, hl, img, ret, tail, he, ht⟩
  · rw [he, hl]; simp [gainTimes]
  · rw [he, hl]; simp [gainTimes]
  · rw [he, hl]; simp [gainTimes]
  · rw [he, hl]; simp [gainTimes]
  · rw [he, hl]; simp [gainTimes]
  · rw [he, hl]
    rcases ht with rfl | rfl <;> simp [gainTimes, hcond]
  · rw [he, hl]
    rcases ht with rfl | rfl
    · refine ⟨?_, ?_, ?_, ?_⟩
      · simp [hcond]
      · intro fr t hm
        simp only [List.append_nil, List.mem_cons, reduceCtorEq, AppEvent.recomputeGain.injEq,
          false_or, List.mem_singleton, or_false, List.mem_nil_iff] at hm
        obtain ⟨hfr, ht⟩ := hm
        subst hfr
        subst ht
        exact ⟨rfl, rfl, ⟨_, rfl⟩⟩
      · intro hno
        exact absurd (by simp) (hno (gpuFrames inp.captured cfg.NUM_CAMERAS 0 []) inp.now)
      · simp [gainTimes, hcond]
    · refine ⟨?_, ?_, ?_, ?_⟩
      · simp [hcond]
      · intro fr t hm
        simp only [List.cons_append, List.nil_append, List.mem_cons, reduceCtorEq,
          AppEvent.recomputeGain.injEq, false_or, List.mem_singleton, or_false,
          List.mem_nil_iff] at hm
        obtain ⟨hfr, ht⟩ := hm
        subst hfr
        subst ht
        exact ⟨rfl, rfl, ⟨_, rfl⟩⟩
      · intro hno
        exact absurd (by simp) (hno (gpuFrames inp.captured cfg.NUM_CAMERAS 0 []) inp.now)
      · simp [gainTimes, hcond]

/-- Every entry of the trace of the loop is the events of one pass on the input of
the same index. -/
theorem loop_pass_of_trace (lib : Library) (cfg : SVConfig) (tps : Int) :
    ∀ (inputs : List LoopInput) (app : SVAppSimple) (loc : RunLocals) (app1 : SVAppSimple)
      (loc1 : RunLocals) (traces : List (List AppEvent)) (ctl : LoopControl),
      SVAppSimple.loop lib cfg tps app loc inputs = some (app1, loc1, traces, ctl) →
      ∀ (k : Nat) (ev : List AppEvent), traces[k]? = some ev →
        ∃ appk lock inp r, inputs[k]? = some inp ∧
        SVAppSimple.loopPass lib cfg tps appk lock inp = some r ∧ r.events = ev := by
  intro inputs
  induction inputs with
  | nil =>
    intro app loc app1 loc1 traces ctl h k ev hk
    simp only [SVAppSimple.loop, Option.some.injEq, Prod.mk.injEq] at h
    rw [← h.2.2.1] at hk
    simp at hk
  | cons inp rest ih =>
    intro app loc app1 loc1 traces ctl h k ev hk
    unfold SVAppSimple.loop at h
    split at h
    · cases h
    · rename_i r hr
      split at h
      · simp only [Option.some.injEq, Prod.mk.injEq] at h
        rw [← h.2.2.1] at hk
        cases k with
        | zero =>
          simp only [List.getElem?_cons_zero, Option.some.injEq] at hk
          exact ⟨app, loc, inp, r, List.getElem?_cons_zero, hr, hk⟩
        | succ k => simp at hk
      · simp only [Option.map_eq_some', Prod.mk.injEq, Prod.exists] at h
        obtain ⟨a, l, tr, c, hrest, _, _, htr, _⟩ := h
        rw [← htr] at hk
        cases k with
        | zero =>
          simp only [List.getElem?_cons_zero, Option.some.injEq] at hk
          exact ⟨app, loc, inp, r, List.getElem?_cons_zero, hr, hk⟩
        | succ k =>
          simp only [List.getElem?_cons_succ] at hk ⊢
          exact ih _ _ _ _ _ _ hrest k ev hk

/-- The clock readings at which the loop calls `recomputeGain` are at least the
interval after `last_gain_update` and after one another. -/
theorem loop_gain_times (lib : Library) (cfg : SVConfig) (tps : Int) (htps : 0 ≤ tps) :
    ∀ (inputs : List LoopInput) (app : SVAppSimple) (loc : RunLocals) (app1 : SVAppSimple)
      (loc1 : RunLocals) (traces : List (List AppEvent)) (ctl : LoopControl),
      SVAppSimple.loop lib cfg tps app loc inputs = some (app1, loc1, traces, ctl) →
      List.Pairwise (fun a b => b - a ≥ (cfg.GAIN_UPDATE_INTERVAL : Int) * tps)
        (loc.last_gain_update :: gainTimesAll traces) := by
  have hI : 0 ≤ (cfg.GAIN_UPDATE_INTERVAL : Int) * tps :=
    Int.mul_nonneg (Int.ofNat_nonneg _) htps
  have key : ∀ (loc : RunLocals) (r : PassResult) (inp : LoopInput) (ts : List Int),
      ((gainTimes r.events = [] ∧ r.locals.last_gain_update = loc.last_gain_update) ∨
        (gainTimes r.events = [inp.now] ∧ r.locals.last_gain_update = inp.now ∧
          inp.now - loc.last_gain_update ≥ (cfg.GAIN_UPDATE_INTERVAL : Int) * tps)) →
      List.Pairwise (fun a b => b - a ≥ (cfg.GAIN_UPDATE_INTERVAL : Int) * tps)
        (r.locals.last_gain_update :: ts) →
      List.Pairwise (fun a b => b - a ≥ (cfg.GAIN_UPDATE_INTERVAL : Int) * tps)
        (loc.last_gain_update :: (gainTimes r.events ++ ts)) := by
    intro loc r inp ts hg hp
    rcases hg with ⟨hg, hl⟩ | ⟨hg, hl, hc⟩
    · rw [hg, ← hl]; exact hp
    · rw [hg]
      rw [hl] at hp
      simp only [List.singleton_append, List.pairwise_cons, List.mem_cons, forall_eq_or_imp]
      rw [List.pairwise_cons] at hp
      refine ⟨⟨hc, fun t ht => ?_⟩, hp.1, hp.2⟩
      have := hp.1 t ht
      omega
  intro inputs
  induction inputs with
  | nil =>
    intro app loc app1 loc1 traces ctl h
    simp only [SVAppSimple.loop, Option.some.injEq, Prod.mk.injEq] at h
    rw [← h.2.2.1]
    simp [gainTimesAll]
  | cons inp rest ih =>
    intro app loc app1 loc1 traces ctl h
    unfold SVAppSimple.loop at h
    split at h
    · cases h
    · rename_i r hr
      have hg := (loopPass_gain lib cfg tps app loc inp r hr).2.2.2
      split at h
      · simp only [Option.some.injEq, Prod.mk.injEq] at h
        rw [← h.2.2.1]
        have := key loc r inp [] hg (by simp)
        simpa [gainTimesAll] using this
      · simp only [Option.map_eq_some', Prod.mk.injEq, Prod.exists] at h
        obtain ⟨a, l, tr, c, hrest, _, _, htr, _⟩ := h
        rw [← htr]
        exact key loc r inp (gainTimesAll tr) hg (ih _ _ _ _ _ _ hrest)

theorem run_eq_loop_or_empty (lib : Library) (cfg : SVConfig) (tps : Int)
    (app : SVAppSimple) (t0 t1 : Int) (inputs : List LoopInput) (app1 : SVAppSimple)
    (loc1 : RunLocals) (traces : List (List AppEvent)) (ctl : LoopControl)
    (h : SVAppSimple.run lib cfg tps app t0 t1 inputs = some (app1, loc1, traces, ctl)) :
    traces = [] ∨
    SVAppSimple.loop lib cfg tps app ⟨t0, 0, t1⟩ inputs = some (app1, loc1, traces, ctl) := by
  unfold SVAppSimple.run at h
  split at h
  · simp only [Option.some.injEq, Prod.mk.injEq] at h
    exact Or.inl h.2.2.1.symm
  · exact Or.inr h

/-- A signal handled between passes does not change what the loop does. -/
theorem process_loop_ignores_signals (lib : Library) (cfg : SVConfig) (tps : Int) :
    ∀ (inputs : List RunInput) (p : Process) (loc : RunLocals),
      (Process.loop lib cfg tps p loc inputs).map (fun x => (x.1.app, x.2))
        = SVAppSimple.loop lib cfg tps p.app loc (passesOf inputs) := by
  intro inputs
  induction inputs with
  | nil => intro p loc; rfl
  | cons i rest ih =>
    intro p loc
    cases i with
    | signal signum =>
      simp only [Process.loop, passesOf]
      exact ih (signalHandler p signum) loc
    | pass inp =>
      simp only [Process.loop, passesOf, SVAppSimple.loop]
      cases hr : SVAppSimple.loopPass lib cfg tps p.app loc inp with
      | none => rfl
      | some r =>
        simp only
        cases hc : r.control with
        | done => rfl
        | again =>
          simp only
          rw [← ih { p with app := r.app } r.locals]
          cases Process.loop lib cfg tps { p with app := r.app } r.locals rest <;> rfl

theorem lastReading_append (t : Int) (xs ys : List Int) :
    lastReading t (xs ++ ys) = lastReading (lastReading t xs) ys := by
  induction xs generalizing t with
  | nil => rfl
  | cons a rest ih =>
    show lastReading a (rest ++ ys) = lastReading (lastReading a rest) ys
    exact ih a

/-- Every entry of the trace of the loop is the events of the pass started from
the state the loop holds at that pass, whose `last_gain_update` is the reading of
the latest `recomputeGain` call of the earlier passes. -/
theorem loop_state_of_trace (lib : Library) (cfg : SVConfig) (tps : Int) :
    ∀ (inputs : List LoopInput) (app : SVAppSimple) (loc : RunLocals) (app1 : SVAppSimple)
      (loc1 : RunLocals) (traces : List (List AppEvent)) (ctl : LoopControl),
      SVAppSimple.loop lib cfg tps app loc inputs = some (app1, loc1, traces, ctl) →
      ∀ (k : Nat) (ev : List AppEvent), traces[k]? = some ev →
        ∃ appk lock inp r,
          SVAppSimple.stateAt lib cfg tps app loc inputs k = some (appk, lock) ∧
          lock.last_gain_update
            = lastReading loc.last_gain_update (gainTimesAll (traces.take k)) ∧
          inputs[k]? = some inp ∧
          SVAppSimple.loopPass lib cfg tps appk lock inp = some r ∧ r.events = ev := by
  intro inputs
  induction inputs with
  | nil =>
    intro app loc app1 loc1 traces ctl h k ev hk
    simp only [SVAppSimple.loop, Option.some.injEq, Prod.mk.injEq] at h
    rw [← h.2.2.1] at hk
    simp at hk
  | cons inp rest ih =>
    intro app loc app1 loc1 traces ctl h k ev hk
    unfold SVAppSimple.loop at h
    split at h
    · cases h
    · rename_i r hr
      have hg := (loopPass_gain lib cfg tps app loc inp r hr).2.2.2
      have hlast : lastReading loc.last_gain_update (gainTimes r.events)
          = r.locals.last_gain_update := by
        rcases hg with ⟨hg, hl⟩ | ⟨hg, hl, _⟩
        · rw [hg, hl]; rfl
        · rw [hg, hl]; rfl
      split at h
      · simp only [Option.some.injEq, Prod.mk.injEq] at h
        rw [← h.2.2.1] at hk ⊢
        cases k with
        | zero =>
          simp only [List.getElem?_cons_zero, Option.some.injEq] at hk
          exact ⟨app, loc, inp, r, rfl, rfl, List.getElem?_cons_zero, hr, hk⟩
        | succ k => simp at hk
      · rename_i hctl
        simp only [Option.map_eq_some', Prod.mk.injEq, Prod.exists] at h
        obtain ⟨a, l, tr, c, hrest, _, _, htr, _⟩ := h
        rw [← htr] at hk ⊢
        cases k with
        | zero =>
          simp only [List.getElem?_cons_zero, Option.some.injEq] at hk
          exact ⟨app, loc, inp, r, rfl, rfl, List.getElem?_cons_zero, hr, hk⟩
        | succ k =>
          simp only [List.getElem?_cons_succ] at hk
          obtain ⟨appk, lock, inpk, rk, hst, hl, hin, hp, he⟩ := ih _ _ _ _ _ _ hrest k ev hk
          refine ⟨appk, lock, inpk, rk, ?_, ?_, ?_, hp, he⟩
          · simp only [SVAppSimple.stateAt, hr, hctl]
            exact hst
          · rw [hl, List.take_succ_cons, gainTimesAll, lastReading_append, hlast]
          · simpa using hin

/-! ## The claims -/

/-- C1: on every state the stitcher can be in and for every frame vector,
`stitch` returns, and it returns `true` exactly when the stitcher is initialised
and the number of frames is the camera count; so it returns `false` before
initialisation and for every other frame count, and its result is the same for
all frame vectors of the same length, whatever the frames contain. -/
theorem stitch_true_iff_ready (lib : Library) (cfg : SVConfig) (s : SVStitcherSimple)
    (hreach : Reachable lib cfg s) (frames : List GpuMat) (output : GpuMat) :
    ∃ o, stitch lib s frames output = some o ∧
      (o.ret = true ↔ (s.is_init = true ∧ frames.length = cfg.NUM_CAMERAS)) ∧
      (s.is_init = false → o.ret = false) ∧
      (frames.length ≠ cfg.NUM_CAMERAS → o.ret = false) ∧
      (∀ (frames1 : List GpuMat) (output1 : GpuMat), frames1.length = frames.length →
        ∃ o1, stitch lib s frames1 output1 = some o1 ∧ o1.ret = o.ret) := by
  have hinv := reachable_inv lib cfg s hreach
  have key : ∀ (fr : List GpuMat) (out : GpuMat), ∃ o, stitch lib s fr out = some o ∧
      (o.ret = true ↔ (s.is_init = true ∧ fr.length = cfg.NUM_CAMERAS)) := by
    intro fr out
    by_cases hacc : s.is_init = true ∧ fr.length = s.num_cameras
    · obtain ⟨g, b, _, _, hst⟩ := stitch_of_inv lib cfg s fr out hinv hacc.1 hacc.2
      exact ⟨_, hst, by simp [hacc.1, hacc.2, hinv.cams]⟩
    · have hrej : s.is_init = false ∨ fr.length ≠ s.num_cameras := by
        by_cases hi : s.is_init = true
        · exact Or.inr fun hl => hacc ⟨hi, hl⟩
        · exact Or.inl (by simpa using hi)
      refine ⟨_, stitch_rejected lib s fr out hrej, ?_⟩
      rw [← hinv.cams]
      simpa using fun hi hl => hacc ⟨hi, hl⟩
  obtain ⟨o, ho, hiff⟩ := key frames output
  refine ⟨o, ho, hiff, ?_, ?_, ?_⟩
  · intro hi
    cases hr : o.ret with
    | false => rfl
    | true => rw [(hiff.mp hr).1] at hi; cases hi
  · intro hl
    cases hr : o.ret with
    | false => rfl
    | true => exact absurd (hiff.mp hr).2 hl
  · intro frames1 output1 hl
    obtain ⟨o1, ho1, hiff1⟩ := key frames1 output1
    refine ⟨o1, ho1, ?_⟩
    rw [hl] at hiff1
    cases hr : o.ret with
    | false =>
      cases hr1 : o1.ret with
      | false => rfl
      | true => rw [hiff.mpr (hiff1.mp hr1)] at hr; cases hr
    | true => exact hiff1.mpr (hiff.mp hr)

/-- Witness for C1: the sample stitcher after initialisation, with four frames. -/
theorem stitch_true_iff_ready_witness :
    Reachable sampleLib sampleCfg sampleReady ∧
    ∃ o, stitch sampleLib sampleReady sampleFrames Mat.new = some o ∧
      (o.ret = true ↔
        (sampleReady.is_init = true ∧ sampleFrames.length = sampleCfg.NUM_CAMERAS)) ∧
      (sampleReady.is_init = false → o.ret = false) ∧
      (sampleFrames.length ≠ sampleCfg.NUM_CAMERAS → o.ret = false) ∧
      (∀ (frames1 : List GpuMat) (output1 : GpuMat), frames1.length = sampleFrames.length →
        ∃ o1, stitch sampleLib sampleReady frames1 output1 = some o1 ∧ o1.ret = o.ret) :=
  ⟨⟨[.initFromFiles sampleFolder sampleFrames], rfl⟩,
    stitch_true_iff_ready sampleLib sampleCfg sampleReady
      ⟨[.initFromFiles sampleFolder sampleFrames], rfl⟩ sampleFrames Mat.new⟩

/-- C2: a `stitch` call that returns `false` was rejected by one of the two
guards (not initialised, or a frame count other than the camera count); it leaves
every member of the stitcher as it was, does not write the output image, reads no
frame, and no call reaches the blender or the gain compensator. -/
theorem stitch_false_changes_nothing (lib : Library) (s : SVStitcherSimple)
    (frames : List GpuMat) (output : GpuMat) (o : StitchOutcome)
    (h : stitch lib s frames output = some o) (hret : o.ret = false) :
    (s.is_init = false ∨ frames.length ≠ s.num_cameras) ∧
    o.self = s ∧ o.output = output ∧ o.trace = [] ∧
    o.self.blender = s.blender ∧ o.self.gain_comp = s.gain_comp := by
  by_cases hrej : s.is_init = false ∨ frames.length ≠ s.num_cameras
  · rw [stitch_rejected lib s frames output hrej] at h
    cases h
    exact ⟨hrej, rfl, rfl, rfl, rfl, rfl⟩
  · exfalso
    unfold stitch at h
    split at h
    · rename_i hi
      exact hrej (Or.inl (by simpa using hi))
    · split at h
      · rename_i hl
        exact hrej (Or.inr hl)
      · split at h
        · cases h
        · split at h
          · cases h
          · dsimp only at h
            split at h <;> (cases h; cases hret)

/-- Witness for C2: a freshly constructed stitcher rejects four frames. -/
theorem stitch_false_changes_nothing_witness :
    stitch sampleLib (SVStitcherSimple.new sampleCfg) sampleFrames sampleFrame
      = some ⟨false, SVStitcherSimple.new sampleCfg, sampleFrame, []⟩ ∧
    ((SVStitcherSimple.new sampleCfg).is_init = false ∨
      sampleFrames.length ≠ (SVStitcherSimple.new sampleCfg).num_cameras) ∧
    (SVStitcherSimple.new sampleCfg) = SVStitcherSimple.new sampleCfg ∧
    sampleFrame = sampleFrame ∧ ([] : List Event) = [] ∧
    (SVStitcherSimple.new sampleCfg).blender = (SVStitcherSimple.new sampleCfg).blender ∧
    (SVStitcherSimple.new sampleCfg).gain_comp = (SVStitcherSimple.new sampleCfg).gain_comp :=
  ⟨rfl, stitch_false_changes_nothing sampleLib (SVStitcherSimple.new sampleCfg) sampleFrames
    sampleFrame ⟨false, SVStitcherSimple.new sampleCfg, sampleFrame, []⟩ rfl rfl⟩

/-- C3: when `initFromFiles`, called on an uninitialised stitcher, returns
`false`, the stitcher is still uninitialised, so every later `stitch` returns
`false` and every later `recomputeGain` does nothing; a wrong sample count or a
calibration file that cannot be opened makes it return `false`; and `is_init` is
`true` afterwards exactly when `initFromFiles` returned `true`. -/
theorem failed_init_stays_uninitialized (lib : Library) (cfg : SVConfig)
    (s : SVStitcherSimple) (folder : Folder) (sample_frames : List GpuMat)
    (o : Outcome Bool) (hs : s.is_init = false)
    (h : initFromFiles lib cfg s folder sample_frames = some o) :
    (o.ret = false →
      o.self.is_init = false ∧
      (∀ (frames : List GpuMat) (output : GpuMat),
        stitch lib o.self frames output = some ⟨false, o.self, output, []⟩) ∧
      (∀ frames : List GpuMat, recomputeGain lib o.self frames = some ⟨(), o.self, []⟩)) ∧
    (sample_frames.length ≠ s.num_cameras → o.ret = false) ∧
    ((∃ i, i < s.num_cameras ∧ folder (.Camparam i) = none) → o.ret = false) ∧
    (o.self.is_init = true ↔ o.ret = true) := by
  have hfalse : o.ret = false → o.self.is_init = false := by
    intro hret
    rcases initFromFiles_failure lib cfg s folder sample_frames o h hret with
      ⟨_, ho, _⟩ | ⟨_, _, _, ho, _⟩
    · rw [ho]; exact hs
    · rw [ho, (eraseCalib_eq (loadCalibration_frame s folder).1).1]; exact hs
  have htrue : o.ret = true → o.self.is_init = true := fun hret =>
    (initFromFiles_success lib cfg s folder sample_frames o h hret).2.2.2.1
  refine ⟨fun hret => ⟨hfalse hret, fun frames output => ?_, fun frames => ?_⟩, ?_, ?_, ?_⟩
  · exact stitch_rejected lib o.self frames output (Or.inl (hfalse hret))
  · exact recomputeGain_uninitialized lib o.self frames (hfalse hret)
  · intro hl
    cases hr : o.ret with
    | false => rfl
    | true =>
      exact absurd (initFromFiles_success lib cfg s folder sample_frames o h hr).2.1 hl
  · intro hmiss
    cases hr : o.ret with
    | false => rfl
    | true =>
      have hc := (initFromFiles_success lib cfg s folder sample_frames o h hr).2.2.1
      rw [(loadCalibration_false_iff s folder).mpr hmiss] at hc
      cases hc
  · constructor
    · intro hi
      cases hr : o.ret with
      | true => rfl
      | false => rw [hfalse hr] at hi; cases hi
    · exact htrue

/-- Witness for C3: a fresh stitcher, a folder without the record of camera 2. -/
theorem failed_init_stays_uninitialized_witness :
    (SVStitcherSimple.new sampleCfg).is_init = false ∧
    initFromFiles sampleLib sampleCfg (SVStitcherSimple.new sampleCfg) sampleFolderMissing2
      sampleFrames = some sampleFailed ∧
    sampleFailed.ret = false ∧
    ((sampleFailed.ret = false →
      sampleFailed.self.is_init = false ∧
      (∀ (frames : List GpuMat) (output : GpuMat),
        stitch sampleLib sampleFailed.self frames output
          = some ⟨false, sampleFailed.self, output, []⟩) ∧
      (∀ frames : List GpuMat,
        recomputeGain sampleLib sampleFailed.self frames = some ⟨(), sampleFailed.self, []⟩)) ∧
    (sampleFrames.length ≠ (SVStitcherSimple.new sampleCfg).num_cameras →
      sampleFailed.ret = false) ∧
    ((∃ i, i < (SVStitcherSimple.new sampleCfg).num_cameras ∧
      sampleFolderMissing2 (.Camparam i) = none) → sampleFailed.ret = false) ∧
    (sampleFailed.self.is_init = true ↔ sampleFailed.ret = true)) :=
  ⟨rfl, rfl, rfl, failed_init_stays_uninitialized sampleLib sampleCfg
    (SVStitcherSimple.new sampleCfg) sampleFolderMissing2 sampleFrames sampleFailed rfl rfl⟩

/-- C4, counterexample: with the record of camera 2 missing, `initFromFiles` on a
fresh stitcher returns `false` and leaves `K_matrices` and `R_matrices` resized
to four entries, holding the matrices of cameras 0 and 1, and `focal_length` set
from record 1; before the call the vectors were empty and `focal_length` was 0. -/
theorem initFromFiles_failure_keeps_loaded_records :
    initFromFiles sampleLib sampleCfg (SVStitcherSimple.new sampleCfg) sampleFolderMissing2
      sampleFrames = some sampleFailed ∧
    sampleFailed.ret = false ∧
    (SVStitcherSimple.new sampleCfg).K_matrices = [] ∧
    (SVStitcherSimple.new sampleCfg).R_matrices = [] ∧
    (SVStitcherSimple.new sampleCfg).focal_length = 0 ∧
    sampleFailed.self.K_matrices
      = [⟨3, 3, [100, 0, 2, 0, 100, 1, 0, 0, 1]⟩, ⟨3, 3, [100, 0, 2, 0, 100, 1, 0, 0, 1]⟩,
          Mat.new, Mat.new] ∧
    sampleFailed.self.R_matrices
      = [⟨3, 3, [1, 0, 0, 0, 1, 0, 0, 0, 1]⟩, ⟨3, 3, [1, 0, 0, 0, 1, 0, 0, 0, 1]⟩,
          Mat.new, Mat.new] ∧
    sampleFailed.self.focal_length = 100 ∧
    sampleFailed.self.K_matrices ≠ (SVStitcherSimple.new sampleCfg).K_matrices :=
  ⟨rfl, rfl, rfl, rfl, rfl, rfl, rfl, rfl, fun h => List.noConfusion h⟩

/-- C4, amended: whenever `initFromFiles` returns `false`, `is_init`, the warp
tables, corners, sizes, masks, crop maps, output size, blender and gain
compensator are as before the call. When it was rejected by a guard (already
initialised, or a wrong sample count) the whole object is unchanged. When the
calibration file of camera `k` is the first that cannot be opened, `K_matrices`
and `R_matrices` have `num_cameras` entries, entries `0 .. k-1` hold the matrices
read from the records of cameras `0 .. k-1`, the other entries are those of the
resized vectors, and `focal_length` holds the value of record `k-1` (it is
unchanged when `k = 0`). -/
theorem initFromFiles_failure_effect (lib : Library) (cfg : SVConfig)
    (s : SVStitcherSimple) (folder : Folder) (sample_frames : List GpuMat)
    (o : Outcome Bool) (h : initFromFiles lib cfg s folder sample_frames = some o)
    (hret : o.ret = false) :
    (o.self.is_init = s.is_init ∧
      o.self.warp_x_maps = s.warp_x_maps ∧ o.self.warp_y_maps = s.warp_y_maps ∧
      o.self.warp_corners = s.warp_corners ∧ o.self.warp_sizes = s.warp_sizes ∧
      o.self.blend_masks = s.blend_masks ∧
      o.self.crop_warp_x = s.crop_warp_x ∧ o.self.crop_warp_y = s.crop_warp_y ∧
      o.self.output_size = s.output_size ∧
      o.self.blender = s.blender ∧ o.self.gain_comp = s.gain_comp) ∧
    ((s.is_init = true ∨ sample_frames.length ≠ s.num_cameras) → o.self = s) ∧
    (∀ k, s.is_init = false → sample_frames.length = s.num_cameras →
      k < s.num_cameras → folder (.Camparam k) = none →
      (∀ j, j < k → folder (.Camparam j) ≠ none) →
      o.self.K_matrices.length = s.num_cameras ∧
      o.self.R_matrices.length = s.num_cameras ∧
      (∀ j, j < k → o.self.K_matrices[j]? = some (recordK folder j) ∧
        o.self.R_matrices[j]? = some (recordR folder j)) ∧
      (∀ j, k ≤ j →
        o.self.K_matrices[j]? = (vresize s.K_matrices s.num_cameras Mat.new)[j]? ∧
        o.self.R_matrices[j]? = (vresize s.R_matrices s.num_cameras Mat.new)[j]?) ∧
      o.self.focal_length = if 0 < k then recordFocal folder (k - 1) else s.focal_length) := by
  rcases initFromFiles_failure lib cfg s folder sample_frames o h hret with
    ⟨hg, ho, _⟩ | ⟨hi, hl, _, ho, _⟩
  · refine ⟨by rw [ho]; simp, fun _ => ho, ?_⟩
    intro k hi hl
    rcases hg with hg | hg
    · rw [hi] at hg; cases hg
    · exact absurd hl hg
  · obtain ⟨e1, _, _, e4, e5, e6, e7, e8, e9, e10, e11, e12, e13⟩ :=
      eraseCalib_eq (loadCalibration_frame s folder).1
    refine ⟨by rw [ho]; exact ⟨e1, e4, e5, e6, e7, e8, e9, e10, e11, e12, e13⟩, ?_, ?_⟩
    · rintro (hg | hg)
      · rw [hi] at hg; cases hg
      · exact absurd hl hg
    · intro k _ _ hk hmiss hopen
      obtain ⟨_, _, h3, h4, h5, h6, h7⟩ :=
        loadCalibration_spec s folder k (Nat.le_of_lt hk) hopen (fun _ => hmiss)
      rw [ho]
      exact ⟨(loadCalibration_frame s folder).2.1, (loadCalibration_frame s folder).2.2,
        fun j hj => ⟨h3 j hj, h5 j hj⟩, fun j hj => ⟨h4 j hj, h6 j hj⟩, h7⟩

/-- Witness for C4 as amended: a fresh stitcher, the record of camera 2 missing. -/
theorem initFromFiles_failure_effect_witness :
    initFromFiles sampleLib sampleCfg (SVStitcherSimple.new sampleCfg) sampleFolderMissing2
      sampleFrames = some sampleFailed ∧
    sampleFailed.ret = false ∧
    sampleFailed.self.warp_x_maps = (SVStitcherSimple.new sampleCfg).warp_x_maps ∧
    sampleFailed.self.blender = (SVStitcherSimple.new sampleCfg).blender ∧
    sampleFailed.self.K_matrices.length = 4 ∧
    sampleFailed.self.K_matrices[1]? = some (recordK sampleFolderMissing2 1) ∧
    sampleFailed.self.focal_length = recordFocal sampleFolderMissing2 1 :=
  have w := initFromFiles_failure_effect sampleLib sampleCfg (SVStitcherSimple.new sampleCfg)
    sampleFolderMissing2 sampleFrames sampleFailed rfl rfl
  have w2 := w.2.2 2 rfl rfl (by decide) rfl (fun j hj => by
    have : j = 0 ∨ j = 1 := by omega
    rcases this with rfl | rfl <;> exact fun hc => Option.noConfusion hc)
  ⟨rfl, rfl, w.1.2.1, w.1.2.2.2.2.2.2.2.2.2.1, w2.1, (w2.2.2.1 1 (by decide)).1, w2.2.2.2.2⟩

/-- C5, counterexample: the record of camera 1 opens but has no `FocalLength`,
`Intrisic` or `Rotation` field, and `loadCalibration` returns `true`. -/
theorem loadCalibration_accepts_blank_record :
    sampleFolderBlank1 (.Camparam 1) = some sampleBlankRecord ∧
    sampleBlankRecord.FocalLength = none ∧ sampleBlankRecord.Intrisic = none ∧
    sampleBlankRecord.Rotation = none ∧
    (SVStitcherSimple.new sampleCfg).num_cameras = 4 ∧
    (loadCalibration (SVStitcherSimple.new sampleCfg) sampleFolderBlank1).ret = true :=
  ⟨rfl, rfl, rfl, rfl, rfl, rfl⟩

/-- C5, amended: `loadCalibration` returns `false` exactly when, for some camera
index below the camera count, the file `Camparam<i>.yaml` cannot be opened, and
`true` exactly when all of them open, whatever fields they hold; after the first
file that cannot be opened no file of a higher index is opened; on success each
file is opened once, in ascending order. -/
theorem loadCalibration_fails_iff_unopenable (s : SVStitcherSimple) (folder : Folder) :
    ((loadCalibration s folder).ret = false ↔
      ∃ i, i < s.num_cameras ∧ folder (.Camparam i) = none) ∧
    ((loadCalibration s folder).ret = true ↔
      ∀ i, i < s.num_cameras → folder (.Camparam i) ≠ none) ∧
    (∀ k, k < s.num_cameras → folder (.Camparam k) = none →
      (∀ j, j < k → folder (.Camparam j) ≠ none) →
      (loadCalibration s folder).trace = openCamparams 0 (k + 1)) ∧
    ((loadCalibration s folder).ret = true →
      (loadCalibration s folder).trace = openCamparams 0 s.num_cameras) := by
  have hiff := loadCalibration_false_iff s folder
  refine ⟨hiff, ?_, ?_, ?_⟩
  · constructor
    · intro ht i hi hfi
      rw [hiff.mpr ⟨i, hi, hfi⟩] at ht
      cases ht
    · intro hall
      cases hr : (loadCalibration s folder).ret with
      | true => rfl
      | false =>
        obtain ⟨i, hi, hfi⟩ := hiff.mp hr
        exact absurd hfi (hall i hi)
  · intro k hk hmiss hopen
    have h2 := (loadCalibration_spec s folder k (Nat.le_of_lt hk) hopen (fun _ => hmiss)).2.1
    rw [h2, if_neg (by omega)]
  · intro ht
    have hall : ∀ i, i < s.num_cameras → folder (.Camparam i) ≠ none := by
      intro i hi hfi
      rw [hiff.mpr ⟨i, hi, hfi⟩] at ht
      cases ht
    have h2 := (loadCalibration_spec s folder s.num_cameras (Nat.le_refl _) hall
      (fun hlt => absurd hlt (Nat.lt_irrefl _))).2.1
    rw [h2, if_pos rfl]

/-- C6: when `corner_warppts.yaml` cannot be opened, `setupOutputCrop` returns
`true`, sets `output_size` to `OUTPUT_WIDTH x OUTPUT_HEIGHT` and does not touch the
crop maps; after a successful `initFromFiles` on such a folder both crop maps are
empty, and every later successful `stitch` outputs the plain resize of the blended
panorama to `OUTPUT_WIDTH x OUTPUT_HEIGHT`. -/
theorem crop_fallback_when_absent (lib : Library) (cfg : SVConfig) (s : SVStitcherSimple)
    (folder : Folder) (sample_frames : List GpuMat) (o : Outcome Bool)
    (hreach : Reachable lib cfg s) (hno : folder .corner_warppts = none)
    (h : initFromFiles lib cfg s folder sample_frames = some o) (hret : o.ret = true) :
    (∀ s0 : SVStitcherSimple,
      (setupOutputCrop lib cfg s0 folder).ret = true ∧
      (setupOutputCrop lib cfg s0 folder).self.output_size
        = ⟨cfg.OUTPUT_WIDTH, cfg.OUTPUT_HEIGHT⟩ ∧
      (setupOutputCrop lib cfg s0 folder).self.crop_warp_x = s0.crop_warp_x ∧
      (setupOutputCrop lib cfg s0 folder).self.crop_warp_y = s0.crop_warp_y) ∧
    o.self.output_size = ⟨cfg.OUTPUT_WIDTH, cfg.OUTPUT_HEIGHT⟩ ∧
    o.self.crop_warp_x.empty = true ∧ o.self.crop_warp_y.empty = true ∧
    (∀ (calls : List Call) (s1 : SVStitcherSimple) (frames : List GpuMat) (output : GpuMat)
        (o1 : StitchOutcome),
      run lib cfg o.self calls = some s1 → stitch lib s1 frames output = some o1 →
      o1.ret = true →
      ∃ b, o1.self.blender = some { b with calls := b.calls ++ [.blend false] } ∧
        o1.output = lib.resizeTo (lib.blend b false) ⟨cfg.OUTPUT_WIDTH, cfg.OUTPUT_HEIGHT⟩
          .INTER_LINEAR) := by
  have hcrop : ∀ s0 : SVStitcherSimple,
      (setupOutputCrop lib cfg s0 folder).ret = true ∧
      (setupOutputCrop lib cfg s0 folder).self.output_size
        = ⟨cfg.OUTPUT_WIDTH, cfg.OUTPUT_HEIGHT⟩ ∧
      (setupOutputCrop lib cfg s0 folder).self.crop_warp_x = s0.crop_warp_x ∧
      (setupOutputCrop lib cfg s0 folder).self.crop_warp_y = s0.crop_warp_y := by
    intro s0
    simp only [setupOutputCrop, hno, and_self]
  have hinv := reachable_inv lib cfg s hreach
  have hsucc := initFromFiles_success lib cfg s folder sample_frames o h hret
  have hni : s.is_init = false := hsucc.1
  have hinit : o.self.is_init = true := hsucc.2.2.2.1
  have hx : o.self.crop_warp_x = Mat.new :=
    (hsucc.2.2.2.2.2.2.2.2.2.2.2.2.2.2.2.2.2.2.1.trans (hcrop s).2.2.1).trans (hinv.crop_x hni)
  have hy : o.self.crop_warp_y = Mat.new :=
    (hsucc.2.2.2.2.2.2.2.2.2.2.2.2.2.2.2.2.2.2.2.1.trans (hcrop s).2.2.2).trans
      (hinv.crop_y hni)
  have hsz : o.self.output_size = ⟨cfg.OUTPUT_WIDTH, cfg.OUTPUT_HEIGHT⟩ :=
    hsucc.2.2.2.2.2.2.2.2.2.2.2.2.2.2.2.2.2.2.2.2.trans (hcrop s).2.1
  refine ⟨hcrop, hsz, by rw [hx]; rfl, by rw [hy]; rfl, ?_⟩
  intro calls s1 frames output o1 hrun hst hret1
  obtain ⟨b, hb, hout⟩ := stitch_output_after_init lib cfg o.self s1 calls frames output o1
    (inv_initFromFiles lib cfg s folder sample_frames o hinv h) hinit hrun hst hret1
  refine ⟨b, hb, ?_⟩
  rw [hout]
  simp [cropOrResize, hx, hsz, Mat.empty, Mat.new]

/-- Witness for C6: a fresh stitcher initialised from the sample folder, which has
no crop file. -/
theorem crop_fallback_when_absent_witness :
    Reachable sampleLib sampleCfg (SVStitcherSimple.new sampleCfg) ∧
    sampleFolder .corner_warppts = none ∧
    initFromFiles sampleLib sampleCfg (SVStitcherSimple.new sampleCfg) sampleFolder
      sampleFrames = some sampleInit ∧
    sampleInit.ret = true ∧
    sampleInit.self.output_size = ⟨sampleCfg.OUTPUT_WIDTH, sampleCfg.OUTPUT_HEIGHT⟩ ∧
    sampleInit.self.crop_warp_x.empty = true ∧ sampleInit.self.crop_warp_y.empty = true :=
  have w := crop_fallback_when_absent sampleLib sampleCfg (SVStitcherSimple.new sampleCfg)
    sampleFolder sampleFrames sampleInit ⟨[], rfl⟩ rfl rfl rfl
  ⟨⟨[], rfl⟩, rfl, rfl, rfl, w.2.1, w.2.2.1, w.2.2.2.1⟩

/-- C7, counterexample: a crop file that opens but lacks the corner `tl` does not
select the fallback: `setupOutputCrop` returns `true`, `output_size` is the 2x2
size read from the file, not the configured 8x4, and (with the sample library)
crop maps are installed. -/
theorem setupOutputCrop_invalid_file_no_fallback :
    sampleFolderBadCrop .corner_warppts = some sampleBadCrop ∧
    sampleBadCrop.tl = none ∧
    (setupOutputCrop sampleLib sampleCfg (SVStitcherSimple.new sampleCfg)
      sampleFolderBadCrop).ret = true ∧
    (setupOutputCrop sampleLib sampleCfg (SVStitcherSimple.new sampleCfg)
      sampleFolderBadCrop).self.output_size = ⟨2, 2⟩ ∧
    (setupOutputCrop sampleLib sampleCfg (SVStitcherSimple.new sampleCfg)
      sampleFolderBadCrop).self.output_size
        ≠ ⟨sampleCfg.OUTPUT_WIDTH, sampleCfg.OUTPUT_HEIGHT⟩ ∧
    (setupOutputCrop sampleLib sampleCfg (SVStitcherSimple.new sampleCfg)
      sampleFolderBadCrop).self.crop_warp_x.empty = false ∧
    (setupOutputCrop sampleLib sampleCfg (SVStitcherSimple.new sampleCfg)
      sampleFolderBadCrop).self.crop_warp_y.empty = false :=
  ⟨rfl, rfl, rfl, rfl, by decide, rfl, rfl⟩

/-- C7, amended: for every crop file that opens, valid or not, `setupOutputCrop`
is non-fatal (it returns `true`) but does not select the fallback of an absent
file: `output_size` becomes the `res_size` read from the file (the
default-constructed size when the field is absent), and the crop maps are those
`buildWarpPerspectiveMaps` builds for that size from the perspective transform of
the four corners read (an absent corner reads as the default point). After a
successful `initFromFiles` on such a folder every later successful `stitch`
remaps the blended panorama through these maps when both are non-empty, and
otherwise resizes it to the size read from the file. -/
theorem crop_file_that_opens_is_used (lib : Library) (cfg : SVConfig)
    (s : SVStitcherSimple) (folder : Folder) (fs : FileStorage)
    (sample_frames : List GpuMat) (o : Outcome Bool)
    (hreach : Reachable lib cfg s) (hopen : folder .corner_warppts = some fs)
    (h : initFromFiles lib cfg s folder sample_frames = some o) (hret : o.ret = true) :
    (∀ s0 : SVStitcherSimple,
      (setupOutputCrop lib cfg s0 folder).ret = true ∧
      (setupOutputCrop lib cfg s0 folder).self.output_size = readNode fs.res_size ⟨0, 0⟩ ∧
      ((setupOutputCrop lib cfg s0 folder).self.crop_warp_x,
        (setupOutputCrop lib cfg s0 folder).self.crop_warp_y)
        = lib.buildWarpPerspectiveMaps
            (lib.getPerspectiveTransform
              (cropSrcPts (readNode fs.tl ⟨0, 0⟩) (readNode fs.tr ⟨0, 0⟩)
                (readNode fs.bl ⟨0, 0⟩) (readNode fs.br ⟨0, 0⟩))
              (cropDstPts (readNode fs.res_size ⟨0, 0⟩)))
            false (readNode fs.res_size ⟨0, 0⟩)) ∧
    o.self.output_size = readNode fs.res_size ⟨0, 0⟩ ∧
    (o.self.crop_warp_x, o.self.crop_warp_y)
      = lib.buildWarpPerspectiveMaps
          (lib.getPerspectiveTransform
            (cropSrcPts (readNode fs.tl ⟨0, 0⟩) (readNode fs.tr ⟨0, 0⟩)
              (readNode fs.bl ⟨0, 0⟩) (readNode fs.br ⟨0, 0⟩))
            (cropDstPts (readNode fs.res_size ⟨0, 0⟩)))
          false (readNode fs.res_size ⟨0, 0⟩) ∧
    (∀ (calls : List Call) (s1 : SVStitcherSimple) (frames : List GpuMat) (output : GpuMat)
        (o1 : StitchOutcome),
      run lib cfg o.self calls = some s1 → stitch lib s1 frames output = some o1 →
      o1.ret = true →
      ∃ b, o1.self.blender = some { b with calls := b.calls ++ [.blend false] } ∧
        o1.output =
          if !o.self.crop_warp_x.empty && !o.self.crop_warp_y.empty then
            lib.remap (lib.blend b false) o.self.crop_warp_x o.self.crop_warp_y
              .INTER_LINEAR .BORDER_CONSTANT
          else
            lib.resizeTo (lib.blend b false) (readNode fs.res_size ⟨0, 0⟩) .INTER_LINEAR) := by
  have hcrop : ∀ s0 : SVStitcherSimple,
      (setupOutputCrop lib cfg s0 folder).ret = true ∧
      (setupOutputCrop lib cfg s0 folder).self.output_size = readNode fs.res_size ⟨0, 0⟩ ∧
      ((setupOutputCrop lib cfg s0 folder).self.crop_warp_x,
        (setupOutputCrop lib cfg s0 folder).self.crop_warp_y)
        = lib.buildWarpPerspectiveMaps
            (lib.getPerspectiveTransform
              (cropSrcPts (readNode fs.tl ⟨0, 0⟩) (readNode fs.tr ⟨0, 0⟩)
                (readNode fs.bl ⟨0, 0⟩) (readNode fs.br ⟨0, 0⟩))
              (cropDstPts (readNode fs.res_size ⟨0, 0⟩)))
            false (readNode fs.res_size ⟨0, 0⟩) := by
    intro s0
    simp only [setupOutputCrop, hopen, and_self]
  have hinv := reachable_inv lib cfg s hreach
  have hsucc := initFromFiles_success lib cfg s folder sample_frames o h hret
  have hinit : o.self.is_init = true := hsucc.2.2.2.1
  have hx := hsucc.2.2.2.2.2.2.2.2.2.2.2.2.2.2.2.2.2.2.1
  have hy := hsucc.2.2.2.2.2.2.2.2.2.2.2.2.2.2.2.2.2.2.2.1
  have hsz : o.self.output_size = readNode fs.res_size ⟨0, 0⟩ :=
    hsucc.2.2.2.2.2.2.2.2.2.2.2.2.2.2.2.2.2.2.2.2.trans (hcrop s).2.1
  refine ⟨hcrop, hsz, by rw [hx, hy]; exact (hcrop s).2.2, ?_⟩
  intro calls s1 frames output o1 hrun hst hret1
  obtain ⟨b, hb, hout⟩ := stitch_output_after_init lib cfg o.self s1 calls frames output o1
    (inv_initFromFiles lib cfg s folder sample_frames o hinv h) hinit hrun hst hret1
  refine ⟨b, hb, ?_⟩
  rw [hout, cropOrResize, hsz]

/-- Witness for C7 as amended: a fresh stitcher initialised from a folder whose
crop file lacks `tl`. -/
theorem crop_file_that_opens_is_used_witness :
    Reachable sampleLib sampleCfg (SVStitcherSimple.new sampleCfg) ∧
    sampleFolderBadCrop .corner_warppts = some sampleBadCrop ∧
    initFromFiles sampleLib sampleCfg (SVStitcherSimple.new sampleCfg) sampleFolderBadCrop
      sampleFrames = some sampleInitBadCrop ∧
    sampleInitBadCrop.ret = true ∧
    sampleInitBadCrop.self.output_size = readNode sampleBadCrop.res_size ⟨0, 0⟩ :=
  have w := crop_file_that_opens_is_used sampleLib sampleCfg (SVStitcherSimple.new sampleCfg)
    sampleFolderBadCrop sampleBadCrop sampleFrames sampleInitBadCrop ⟨[], rfl⟩ rfl rfl rfl
  ⟨⟨[], rfl⟩, rfl, rfl, rfl, w.2.1⟩

/-- C8: for every initialised stitcher and every vector of exactly N frames,
`stitch` returns `true` and the calls it makes on the blender are `feed` for
camera 0, camera 1, ..., camera N-1, in this order, each once, each with the mask
`blend_masks[i]` and the index `i` of its camera (and the scaled, gain-compensated,
warped, converted frame of that camera), followed by exactly one `blend`. -/
theorem stitch_feeds_in_camera_order (lib : Library) (cfg : SVConfig)
    (s : SVStitcherSimple) (frames : List GpuMat) (output : GpuMat)
    (hreach : Reachable lib cfg s) (hinit : s.is_init = true)
    (hlen : frames.length = cfg.NUM_CAMERAS) :
    s.blend_masks.length = cfg.NUM_CAMERAS ∧
    ∃ g b o, s.gain_comp = some g ∧ s.blender = some b ∧
      stitch lib s frames output = some o ∧ o.ret = true ∧
      o.self.blender = some { b with calls := b.calls ++
        ((List.range cfg.NUM_CAMERAS).map fun i =>
          BlenderCall.feed (fedImage lib s frames g i) (s.blend_masks.getD i Mat.new) i) ++
        [BlenderCall.blend false] } := by
  have hinv := reachable_inv lib cfg s hreach
  have hn := hinv.cams
  refine ⟨(hinv.masks_len hinit).trans hn, ?_⟩
  obtain ⟨g, b, hg, hb, hst⟩ := stitch_of_inv lib cfg s frames output hinv hinit (hlen.trans hn.symm)
  refine ⟨g, b, _, hg, hb, hst, rfl, ?_⟩
  simp only [blenderFed, hn]
  rfl

/-- Witness for C8: the initialised sample stitcher with four frames. -/
theorem stitch_feeds_in_camera_order_witness :
    Reachable sampleLib sampleCfg sampleReady ∧ sampleReady.is_init = true ∧
    sampleFrames.length = sampleCfg.NUM_CAMERAS ∧
    sampleReady.blend_masks.length = sampleCfg.NUM_CAMERAS ∧
    ∃ g b o, sampleReady.gain_comp = some g ∧ sampleReady.blender = some b ∧
      stitch sampleLib sampleReady sampleFrames Mat.new = some o ∧ o.ret = true ∧
      o.self.blender = some { b with calls := b.calls ++
        ((List.range sampleCfg.NUM_CAMERAS).map fun i =>
          BlenderCall.feed (fedImage sampleLib sampleReady sampleFrames g i)
            (sampleReady.blend_masks.getD i Mat.new) i) ++
        [BlenderCall.blend false] } :=
  ⟨⟨[.initFromFiles sampleFolder sampleFrames], rfl⟩, rfl, rfl,
    stitch_feeds_in_camera_order sampleLib sampleCfg sampleReady sampleFrames Mat.new
      ⟨[.initFromFiles sampleFolder sampleFrames], rfl⟩ rfl rfl⟩

/-- C9: on every initialised stitcher and for every frame vector, `stitch`
returns and leaves the calibration, warp tables, corners, sizes, masks, crop maps
and output size unchanged, and opens no file; every `recomputeGain` call that
returns does the same, and it returns when given at least N frames; hence after
any sequence of calls these members still have the values they had at the end of
initialisation. -/
theorem geometry_fixed_after_init (lib : Library) (cfg : SVConfig)
    (s : SVStitcherSimple) (frames : List GpuMat) (output : GpuMat)
    (hreach : Reachable lib cfg s) (hinit : s.is_init = true) :
    (∃ o, stitch lib s frames output = some o ∧ SameGeometry o.self s ∧
      ∀ f, Event.openFile f ∉ o.trace) ∧
    (∀ o, recomputeGain lib s frames = some o →
      SameGeometry o.self s ∧ ∀ f, Event.openFile f ∉ o.trace) ∧
    (cfg.NUM_CAMERAS ≤ frames.length → ∃ o, recomputeGain lib s frames = some o) ∧
    (∀ (calls : List Call) (s1 : SVStitcherSimple),
      run lib cfg s calls = some s1 → SameGeometry s1 s) := by
  have hinv := reachable_inv lib cfg s hreach
  refine ⟨?_, ?_, ?_, ?_⟩
  · have hex : ∃ o, stitch lib s frames output = some o := by
      by_cases hl : frames.length = s.num_cameras
      · obtain ⟨g, b, _, _, hst⟩ := stitch_of_inv lib cfg s frames output hinv hinit hl
        exact ⟨_, hst⟩
      · exact ⟨_, stitch_rejected lib s frames output (Or.inr hl)⟩
    obtain ⟨o, ho⟩ := hex
    obtain ⟨h1, h2⟩ := stitch_frame lib s frames output o ho
    exact ⟨o, ho, (eraseCollab_eq h1).2.2.2, h2⟩
  · intro o ho
    obtain ⟨h1, _, h2⟩ := recomputeGain_frame lib s frames o ho
    exact ⟨(eraseCollab_eq h1).2.2.2, h2⟩
  · intro hl
    rw [← hinv.cams] at hl
    have hg := hinv.gain_set hinit
    cases hg1 : s.gain_comp with
    | none => exact absurd hg1 hg
    | some g =>
      obtain ⟨w1, _, hw⟩ := recomputeWarp_spec lib s frames s.num_cameras 0
        (List.replicate s.num_cameras Mat.new) [] (by omega)
        (by rw [hinv.x_len hinit]; omega) (by rw [hinv.y_len hinit]; omega)
      simp only [recomputeGain, hinit, hg1, hw]
      exact ⟨_, rfl⟩
  · intro calls s1 hrun
    exact (eraseCollab_eq (run_ready_frame lib cfg calls s s1 hinit hrun)).2.2.2

/-- Witness for C9: the initialised sample stitcher with four frames. -/
theorem geometry_fixed_after_init_witness :
    Reachable sampleLib sampleCfg sampleReady ∧ sampleReady.is_init = true ∧
    (∃ o, stitch sampleLib sampleReady sampleFrames Mat.new = some o ∧
      SameGeometry o.self sampleReady ∧ ∀ f, Event.openFile f ∉ o.trace) ∧
    (∀ o, recomputeGain sampleLib sampleReady sampleFrames = some o →
      SameGeometry o.self sampleReady ∧ ∀ f, Event.openFile f ∉ o.trace) ∧
    (sampleCfg.NUM_CAMERAS ≤ sampleFrames.length →
      ∃ o, recomputeGain sampleLib sampleReady sampleFrames = some o) ∧
    (∀ (calls : List Call) (s1 : SVStitcherSimple),
      run sampleLib sampleCfg sampleReady calls = some s1 → SameGeometry s1 sampleReady) :=
  ⟨⟨[.initFromFiles sampleFolder sampleFrames], rfl⟩, rfl,
    geometry_fixed_after_init sampleLib sampleCfg sampleReady sampleFrames Mat.new
      ⟨[.initFromFiles sampleFolder sampleFrames], rfl⟩ rfl⟩

/-- C10, the code at the failing inputs: on the initialised sample stitcher (four
cameras) `recomputeGain` has no frame-count guard. With no frame, or with one, it
indexes the frame vector out of bounds (undefined behaviour, `none`); with five
frames it reads frames 0 to 3 and calls the gain compensator's `recompute`, which
changes the gain state. On an uninitialised stitcher it returns at once. -/
theorem recomputeGain_has_no_frame_count_guard :
    sampleReady.is_init = true ∧ sampleReady.num_cameras = 4 ∧
    recomputeGain sampleLib sampleReady [] = none ∧
    recomputeGain sampleLib sampleReady [sampleFrame] = none ∧
    sampleFiveFrames.length = 5 ∧
    (∃ o g warped_frames,
      recomputeGain sampleLib sampleReady sampleFiveFrames = some o ∧
      sampleReady.gain_comp = some g ∧
      o.trace = [.readFrame 0, .readFrame 1, .readFrame 2, .readFrame 3] ∧
      o.self.gain_comp = some { g with calls := g.calls ++
        [.recompute warped_frames sampleReady.warp_corners sampleReady.blend_masks] }) ∧
    (∀ (lib : Library) (s : SVStitcherSimple) (frames : List GpuMat),
      s.is_init = false → recomputeGain lib s frames = some ⟨(), s, []⟩) := by
  refine ⟨rfl, rfl, rfl, rfl, rfl, ?_, recomputeGain_uninitialized⟩
  have h : recomputeGain sampleLib sampleReady sampleFiveFrames
      = some ((recomputeGain sampleLib sampleReady sampleFiveFrames).getD
          ⟨(), sampleReady, []⟩) := rfl
  rcases recomputeGain_cases sampleLib sampleReady sampleFiveFrames _ h with
    ⟨hno, _⟩ | ⟨_, g, w, hg, _, hs⟩
  · rcases hno with hno | hno
    · exact absurd hno (by decide)
    · have hsome : sampleReady.gain_comp.isSome = true := rfl
      rw [hno] at hsome
      cases hsome
  · exact ⟨_, g, w, h, hg, rfl, by rw [hs]⟩

/-- C11: for every crop file that opens with `res_size = (W, H)` and the corners
`tl`, `tr`, `bl`, `br` present, `setupOutputCrop` returns `true`, stores `(W, H)`
in `output_size`, and the crop maps it stores are those of
`buildWarpPerspectiveMaps` for output size `(W, H)` (not inverted) applied to the
perspective transform requested with the source points `tl, tr, bl, br` and the
destination points `(0,0), (W,0), (0,H), (W,H)`, in this pairing. -/
theorem crop_transform_point_pairs (lib : Library) (cfg : SVConfig)
    (s : SVStitcherSimple) (folder : Folder) (fs : FileStorage)
    (W H : Int) (tl tr bl br : Point)
    (hopen : folder .corner_warppts = some fs)
    (hsize : fs.res_size = some ⟨W, H⟩)
    (htl : fs.tl = some tl) (htr : fs.tr = some tr)
    (hbl : fs.bl = some bl) (hbr : fs.br = some br) :
    (setupOutputCrop lib cfg s folder).ret = true ∧
    (setupOutputCrop lib cfg s folder).self.output_size = ⟨W, H⟩ ∧
    ((setupOutputCrop lib cfg s folder).self.crop_warp_x,
      (setupOutputCrop lib cfg s folder).self.crop_warp_y)
      = lib.buildWarpPerspectiveMaps
          (lib.getPerspectiveTransform
            [⟨tl.x, tl.y⟩, ⟨tr.x, tr.y⟩, ⟨bl.x, bl.y⟩, ⟨br.x, br.y⟩]
            [⟨0, 0⟩, ⟨W, 0⟩, ⟨0, H⟩, ⟨W, H⟩])
          false ⟨W, H⟩ := by
  simp only [setupOutputCrop, hopen, hsize, htl, htr, hbl, hbr, readNode, Option.getD_some,
    cropSrcPts, cropDstPts, and_self]

/-- Witness for C11: the sample crop file with an 8x4 canvas. -/
theorem crop_transform_point_pairs_witness :
    sampleFolderGoodCrop .corner_warppts = some sampleGoodCrop ∧
    sampleGoodCrop.res_size = some ⟨8, 4⟩ ∧
    (setupOutputCrop sampleLib sampleCfg (SVStitcherSimple.new sampleCfg)
      sampleFolderGoodCrop).self.output_size = ⟨8, 4⟩ ∧
    ((setupOutputCrop sampleLib sampleCfg (SVStitcherSimple.new sampleCfg)
        sampleFolderGoodCrop).self.crop_warp_x,
      (setupOutputCrop sampleLib sampleCfg (SVStitcherSimple.new sampleCfg)
        sampleFolderGoodCrop).self.crop_warp_y)
      = sampleLib.buildWarpPerspectiveMaps
          (sampleLib.getPerspectiveTransform
            [⟨1, 1⟩, ⟨6, 1⟩, ⟨1, 5⟩, ⟨6, 5⟩]
            [⟨0, 0⟩, ⟨8, 0⟩, ⟨0, 4⟩, ⟨8, 4⟩])
          false ⟨8, 4⟩ :=
  have w := crop_transform_point_pairs sampleLib sampleCfg (SVStitcherSimple.new sampleCfg)
    sampleFolderGoodCrop sampleGoodCrop 8 4 ⟨1, 1⟩ ⟨6, 1⟩ ⟨1, 5⟩ ⟨6, 5⟩ rfl rfl rfl rfl rfl rfl
  ⟨rfl, rfl, w.2.1, w.2.2⟩

/-- C12: when the records of all N cameras open and hold a focal length, an
intrinsic and a rotation matrix (N positive), `loadCalibration` returns `true`,
`focal_length` is the focal length of the record of camera N-1, whatever the other
records hold, `K_matrices` and `R_matrices` have exactly N entries, and entry `i`
of each is the intrinsic, respectively rotation, matrix of record `i`. -/
theorem focal_length_last_record_wins (s : SVStitcherSimple) (folder : Folder)
    (focal : Nat → Scalar) (Ks Rs : Nat → Mat) (hN : 0 < s.num_cameras)
    (hrec : ∀ i, i < s.num_cameras → ∃ fs, folder (.Camparam i) = some fs ∧
      fs.FocalLength = some (focal i) ∧ fs.Intrisic = some (Ks i) ∧
      fs.Rotation = some (Rs i)) :
    (loadCalibration s folder).ret = true ∧
    (loadCalibration s folder).self.focal_length = focal (s.num_cameras - 1) ∧
    (loadCalibration s folder).self.K_matrices.length = s.num_cameras ∧
    (loadCalibration s folder).self.R_matrices.length = s.num_cameras ∧
    (∀ i, i < s.num_cameras →
      (loadCalibration s folder).self.K_matrices[i]? = some (Ks i) ∧
      (loadCalibration s folder).self.R_matrices[i]? = some (Rs i)) := by
  have hopen : ∀ j, j < s.num_cameras → folder (.Camparam j) ≠ none := by
    intro j hj hc
    obtain ⟨fs, hfs, _⟩ := hrec j hj
    rw [hc] at hfs
    cases hfs
  obtain ⟨h1, _, h3, _, h5, _, h7⟩ := loadCalibration_spec s folder s.num_cameras
    (Nat.le_refl _) hopen (fun h => absurd h (Nat.lt_irrefl _))
  obtain ⟨_, hK, hR⟩ := loadCalibration_frame s folder
  refine ⟨by simpa using h1, ?_, hK, hR, ?_⟩
  · obtain ⟨fs, hfs, hf, _, _⟩ := hrec (s.num_cameras - 1) (by omega)
    rw [h7, if_pos hN]
    simp [recordFocal, hfs, hf, readNode]
  · intro i hi
    obtain ⟨fs, hfs, _, hk, hr⟩ := hrec i hi
    rw [h3 i hi, h5 i hi]
    simp [recordK, recordR, hfs, hk, hr, readNode]

/-- Witness for C12: four records with focal lengths 10, 20, 30, 40; the stored
focal length is 40. -/
theorem focal_length_last_record_wins_witness :
    0 < (SVStitcherSimple.new sampleCfg).num_cameras ∧
    (loadCalibration (SVStitcherSimple.new sampleCfg) sampleFolderFocals).ret = true ∧
    (loadCalibration (SVStitcherSimple.new sampleCfg) sampleFolderFocals).self.focal_length
      = 40 ∧
    (loadCalibration (SVStitcherSimple.new sampleCfg) sampleFolderFocals).self.K_matrices.length
      = 4 :=
  have w := focal_length_last_record_wins (SVStitcherSimple.new sampleCfg) sampleFolderFocals
    sampleFocals (fun _ => ⟨3, 3, [100, 0, 2, 0, 100, 1, 0, 0, 1]⟩)
    (fun _ => ⟨3, 3, [1, 0, 0, 0, 1, 0, 0, 0, 1]⟩) (by decide)
    (fun i hi => ⟨sampleRecordFocal (sampleFocals i), by
      have hi4 : i < 4 := hi
      simp [sampleFolderFocals, hi4], rfl, rfl, rfl⟩)
  ⟨by decide, w.1, w.2.1, w.2.2.1⟩

/-- C18: in every state reachable from a freshly constructed stitcher by
`initFromFiles`, `stitch` and `recomputeGain` calls, `is_init = true` implies that
`K_matrices`, `R_matrices`, `warp_x_maps`, `warp_y_maps`, `warp_corners`,
`warp_sizes` and `blend_masks` have exactly `num_cameras` entries and that
`blender` and `gain_comp` are set; so for a frame vector that passes the guards
of `stitch` every index below `num_cameras` is in bounds of `frames`,
`warp_x_maps`, `warp_y_maps` and `blend_masks`, and the call has defined
behaviour. -/
theorem tables_complete_when_initialized (lib : Library) (cfg : SVConfig)
    (s : SVStitcherSimple) (hreach : Reachable lib cfg s) (hinit : s.is_init = true) :
    s.K_matrices.length = s.num_cameras ∧ s.R_matrices.length = s.num_cameras ∧
    s.warp_x_maps.length = s.num_cameras ∧ s.warp_y_maps.length = s.num_cameras ∧
    s.warp_corners.length = s.num_cameras ∧ s.warp_sizes.length = s.num_cameras ∧
    s.blend_masks.length = s.num_cameras ∧
    s.blender ≠ none ∧ s.gain_comp ≠ none ∧
    (∀ (frames : List GpuMat) (output : GpuMat), frames.length = s.num_cameras →
      (∀ i, i < s.num_cameras →
        i < frames.length ∧ i < s.warp_x_maps.length ∧ i < s.warp_y_maps.length ∧
        i < s.blend_masks.length) ∧
      stitch lib s frames output ≠ none) := by
  have hinv := reachable_inv lib cfg s hreach
  refine ⟨hinv.K_len hinit, hinv.R_len hinit, hinv.x_len hinit, hinv.y_len hinit,
    hinv.corners_len hinit, hinv.sizes_len hinit, hinv.masks_len hinit,
    hinv.blender_set hinit, hinv.gain_set hinit, ?_⟩
  intro frames output hl
  refine ⟨fun i hi => ⟨by omega, by rw [hinv.x_len hinit]; exact hi,
    by rw [hinv.y_len hinit]; exact hi, by rw [hinv.masks_len hinit]; exact hi⟩, ?_⟩
  obtain ⟨g, b, _, _, hst⟩ := stitch_of_inv lib cfg s frames output hinv hinit hl
  rw [hst]
  exact fun hc => Option.noConfusion hc

/-- Witness for C18: the initialised sample stitcher. -/
theorem tables_complete_when_initialized_witness :
    Reachable sampleLib sampleCfg sampleReady ∧ sampleReady.is_init = true ∧
    sampleReady.K_matrices.length = sampleReady.num_cameras ∧
    sampleReady.warp_x_maps.length = sampleReady.num_cameras ∧
    sampleReady.blend_masks.length = sampleReady.num_cameras ∧
    sampleReady.blender ≠ none ∧ sampleReady.gain_comp ≠ none :=
  have w := tables_complete_when_initialized sampleLib sampleCfg sampleReady
    ⟨[.initFromFiles sampleFolder sampleFrames], rfl⟩ rfl
  ⟨⟨[.initFromFiles sampleFolder sampleFrames], rfl⟩, rfl, w.1, w.2.2.1,
    w.2.2.2.2.2.2.1, w.2.2.2.2.2.2.2.1, w.2.2.2.2.2.2.2.2.1⟩

/-- C13, counterexample: on the sample inputs `initFromFiles` succeeds and prepares
the blender before it initialises the gain compensator, which is not the order of
the specification's sections 4.4 and 4.5. -/
theorem init_prepares_blender_before_gain :
    (initFromFilesSteps sampleLib sampleCfg (SVStitcherSimple.new sampleCfg) sampleFolder
      sampleFrames).map (fun r => (r.1.ret, r.2))
      = some (true, [.loadCalibration, .setupWarpMaps, .createOverlapMasks,
          .blenderPrepare, .gainInit, .setupOutputCrop]) ∧
    ([.loadCalibration, .setupWarpMaps, .createOverlapMasks, .blenderPrepare, .gainInit,
      .setupOutputCrop] : List InitStep) ≠ specInitOrder :=
  ⟨rfl, by decide⟩

/-- C13, amended: the steps `initFromFiles` starts are always an initial part of
the list calibration load, warp maps, overlap masks, blender preparation, gain
compensator initialisation, output crop, in this order; a successful call runs
all six; a call that returns `false` was either rejected by a guard before any
step, or stopped after a failing calibration load, with no later step run. -/
theorem init_steps_follow_code_order (lib : Library) (cfg : SVConfig)
    (s : SVStitcherSimple) (folder : Folder) (sample_frames : List GpuMat)
    (o : Outcome Bool) (steps : List InitStep)
    (h : initFromFilesSteps lib cfg s folder sample_frames = some (o, steps)) :
    initFromFiles lib cfg s folder sample_frames = some o ∧
    (o.ret = true ↔ steps = [.loadCalibration, .setupWarpMaps, .createOverlapMasks,
      .blenderPrepare, .gainInit, .setupOutputCrop]) ∧
    (o.ret = false →
      (steps = [] ∧ (s.is_init = true ∨ sample_frames.length ≠ s.num_cameras)) ∨
      (steps = [.loadCalibration] ∧ (loadCalibration s folder).ret = false)) ∧
    (∃ rest, steps ++ rest = [.loadCalibration, .setupWarpMaps, .createOverlapMasks,
      .blenderPrepare, .gainInit, .setupOutputCrop]) := by
  have hagree : initFromFiles lib cfg s folder sample_frames = some o := by
    rw [← initFromFilesSteps_outcome, h]; rfl
  refine ⟨hagree, ?_⟩
  unfold initFromFilesSteps at h
  split at h
  · rename_i hi
    cases h
    exact ⟨by simp, fun _ => Or.inl ⟨rfl, Or.inl hi⟩, ⟨_, rfl⟩⟩
  · split at h
    · rename_i hl
      cases h
      exact ⟨by simp, fun _ => Or.inl ⟨rfl, Or.inr hl⟩, ⟨_, rfl⟩⟩
    · dsimp only at h
      split at h
      · rename_i hc
        cases h
        exact ⟨by simp, fun _ => Or.inr ⟨rfl, by simpa using hc⟩, ⟨_, rfl⟩⟩
      · split at h
        · cases h
        · rename_i ok_w s_w hw
          have hokw := (setupWarpMaps_frame lib cfg _ _ _ hw).1
          subst hokw
          simp only [Bool.not_true, Bool.false_eq_true, if_false] at h
          split at h
          · cases h
          · rename_i ok_m s_m hm
            have hokm := (createOverlapMasks_frame lib cfg _ _ _ _ hm).1
            subst hokm
            simp only [Bool.not_true, Bool.false_eq_true, if_false] at h
            split at h
            · cases h
            · have hret := fun s0 => (setupOutputCrop_frame lib cfg s0 folder).1
              simp only [hret, Bool.not_true, Bool.false_eq_true, if_false, Option.some.injEq,
                Prod.mk.injEq] at h
              obtain ⟨ho, hs⟩ := h
              subst ho
              subst hs
              refine ⟨?_, ?_, ?_⟩
              · simp
              · intro hc
                cases hc
              · exact ⟨[], rfl⟩

/-- Witness for C13 as amended: the sample initialisation. -/
theorem init_steps_follow_code_order_witness :
    initFromFilesSteps sampleLib sampleCfg (SVStitcherSimple.new sampleCfg) sampleFolder
      sampleFrames
      = some (sampleInit, [.loadCalibration, .setupWarpMaps, .createOverlapMasks,
          .blenderPrepare, .gainInit, .setupOutputCrop]) ∧
    initFromFiles sampleLib sampleCfg (SVStitcherSimple.new sampleCfg) sampleFolder
      sampleFrames = some sampleInit ∧
    sampleInit.ret = true :=
  have w := init_steps_follow_code_order sampleLib sampleCfg (SVStitcherSimple.new sampleCfg)
    sampleFolder sampleFrames sampleInit
    [.loadCalibration, .setupWarpMaps, .createOverlapMasks, .blenderPrepare, .gainInit,
      .setupOutputCrop] rfl
  ⟨rfl, w.1, w.2.1.mpr rfl⟩

/-- C15: in every pass of the loop of `SVAppSimple::run`, `stitch` is called only
if capture succeeded and all N captured frames are non-empty, and then with
exactly these N frames in camera-index order; if capture fails or some frame is
empty, the pass calls neither `stitch`, `recomputeGain` nor `render`. -/
theorem empty_frames_filtered_before_stitch (lib : Library) (cfg : SVConfig) (tps : Int)
    (app : SVAppSimple) (t0 t1 : Int) (inputs : List LoopInput) (app1 : SVAppSimple)
    (loc1 : RunLocals) (traces : List (List AppEvent)) (ctl : LoopControl)
    (h : SVAppSimple.run lib cfg tps app t0 t1 inputs = some (app1, loc1, traces, ctl)) :
    ∀ (k : Nat) (ev : List AppEvent), traces[k]? = some ev →
      ∃ inp, inputs[k]? = some inp ∧
        (∀ fr ret, AppEvent.stitch fr ret ∈ ev →
          inp.captureOk = true ∧
          (∀ i, i < cfg.NUM_CAMERAS → (inp.captured i).gpuFrame.empty = false) ∧
          fr = (List.range cfg.NUM_CAMERAS).map (fun i => (inp.captured i).gpuFrame) ∧
          fr.length = cfg.NUM_CAMERAS) ∧
        ((inp.captureOk = false ∨
            ∃ i, i < cfg.NUM_CAMERAS ∧ (inp.captured i).gpuFrame.empty = true) →
          (∀ fr ret, AppEvent.stitch fr ret ∉ ev) ∧
          (∀ fr t, AppEvent.recomputeGain fr t ∉ ev) ∧
          (∀ img ret, AppEvent.render img ret ∉ ev)) := by
  intro k ev hk
  rcases run_eq_loop_or_empty lib cfg tps app t0 t1 inputs app1 loc1 traces ctl h with
    hnil | hloop
  · rw [hnil] at hk
    simp at hk
  · obtain ⟨appk, lock, inp, r, hin, hpass, hev⟩ :=
      loop_pass_of_trace lib cfg tps inputs _ _ _ _ _ _ hloop k ev hk
    rw [← hev]
    exact ⟨inp, hin, loopPass_filter lib cfg tps appk lock inp r hpass⟩

/-- Witness for C15: the sample run; pass 0 stitches the four captured frames,
pass 1 (failed capture) and pass 2 (empty frame 2) call nothing. -/
theorem empty_frames_filtered_before_stitch_witness :
    SVAppSimple.run sampleLib sampleCfg 1000 sampleApp 0 0 sampleRunInputs = some sampleRun ∧
    sampleRun.2.2.1.map (fun ev => ev.map AppEvent.name)
      = [["shouldClose", "capture", "stitch", "now", "render", "sleep"],
         ["shouldClose", "capture", "sleep"],
         ["shouldClose", "capture", "sleep"],
         ["shouldClose", "capture", "stitch", "now", "recomputeGain", "render", "sleep"],
         ["shouldClose", "capture", "stitch", "now", "render", "sleep"],
         ["shouldClose", "capture", "stitch", "now", "recomputeGain", "render", "sleep"]] ∧
    (∀ (k : Nat) (ev : List AppEvent), sampleRun.2.2.1[k]? = some ev →
      ∃ inp, sampleRunInputs[k]? = some inp ∧
        (∀ fr ret, AppEvent.stitch fr ret ∈ ev →
          inp.captureOk = true ∧
          (∀ i, i < sampleCfg.NUM_CAMERAS → (inp.captured i).gpuFrame.empty = false) ∧
          fr = (List.range sampleCfg.NUM_CAMERAS).map (fun i => (inp.captured i).gpuFrame) ∧
          fr.length = sampleCfg.NUM_CAMERAS) ∧
        ((inp.captureOk = false ∨
            ∃ i, i < sampleCfg.NUM_CAMERAS ∧ (inp.captured i).gpuFrame.empty = true) →
          (∀ fr ret, AppEvent.stitch fr ret ∉ ev) ∧
          (∀ fr t, AppEvent.recomputeGain fr t ∉ ev) ∧
          (∀ img ret, AppEvent.render img ret ∉ ev))) :=
  ⟨rfl, rfl, empty_frames_filtered_before_stitch sampleLib sampleCfg 1000 sampleApp 0 0
    sampleRunInputs sampleRun.1 sampleRun.2.1 sampleRun.2.2.1 sampleRun.2.2.2 rfl⟩

/-- C16: in every pass of the loop of `SVAppSimple::run`, started from the
application object and locals the run holds at that pass, `recomputeGain` is
called if and only if `stitch` has returned `true` in that pass and the clock
reading taken after it is at least `GAIN_UPDATE_INTERVAL` seconds after
`last_gain_update`, which is the reading of the latest earlier `recomputeGain`
call, or of the start of the run when there is none; the call comes after the
return of `stitch` and the clock reading, and `last_gain_update` becomes that
reading (it is unchanged in a pass without the call); hence the clock readings of
any two `recomputeGain` calls of a run, and of the first call and the start of the
run, are at least `GAIN_UPDATE_INTERVAL` seconds apart. `tps` is the number of
clock ticks in a second. -/
theorem gain_refresh_between_frames (lib : Library) (cfg : SVConfig) (tps : Int)
    (app : SVAppSimple) (t0 t1 : Int) (inputs : List LoopInput) (app1 : SVAppSimple)
    (loc1 : RunLocals) (traces : List (List AppEvent)) (ctl : LoopControl)
    (htps : 0 ≤ tps)
    (h : SVAppSimple.run lib cfg tps app t0 t1 inputs = some (app1, loc1, traces, ctl)) :
    (∀ (k : Nat) (ev : List AppEvent), traces[k]? = some ev →
      ∃ appk lock inp r,
        SVAppSimple.stateAt lib cfg tps app ⟨t0, 0, t1⟩ inputs k = some (appk, lock) ∧
        lock.last_gain_update = lastReading t0 (gainTimesAll (traces.take k)) ∧
        inputs[k]? = some inp ∧
        SVAppSimple.loopPass lib cfg tps appk lock inp = some r ∧ r.events = ev ∧
        ((∃ fr t, AppEvent.recomputeGain fr t ∈ ev) ↔
          ((∃ fr, AppEvent.stitch fr true ∈ ev) ∧
            inp.now - lock.last_gain_update ≥ (cfg.GAIN_UPDATE_INTERVAL : Int) * tps)) ∧
        ((∃ fr t, AppEvent.recomputeGain fr t ∈ ev) ↔
          ((∃ fr, AppEvent.stitch fr true ∈ ev) ∧
            inp.now - lastReading t0 (gainTimesAll (traces.take k))
              ≥ (cfg.GAIN_UPDATE_INTERVAL : Int) * tps)) ∧
        (∀ fr t, AppEvent.recomputeGain fr t ∈ ev →
          t = inp.now ∧ r.locals.last_gain_update = inp.now ∧
          ∃ rest, ev = [.shouldClose false, .capture true, .stitch fr true, .now inp.now,
            .recomputeGain fr inp.now] ++ rest) ∧
        ((∀ fr t, AppEvent.recomputeGain fr t ∉ ev) →
          r.locals.last_gain_update = lock.last_gain_update)) ∧
    List.Pairwise (fun a b => b - a ≥ (cfg.GAIN_UPDATE_INTERVAL : Int) * tps)
      (t0 :: gainTimesAll traces) := by
  rcases run_eq_loop_or_empty lib cfg tps app t0 t1 inputs app1 loc1 traces ctl h with
    hnil | hloop
  · rw [hnil]
    refine ⟨fun k ev hk => ?_, by simp [gainTimesAll]⟩
    simp at hk
  · refine ⟨fun k ev hk => ?_, loop_gain_times lib cfg tps htps inputs _ _ _ _ _ _ hloop⟩
    obtain ⟨appk, lock, inp, r, hst, hl, hin, hpass, hev⟩ :=
      loop_state_of_trace lib cfg tps inputs _ _ _ _ _ _ hloop k ev hk
    obtain ⟨g1, g2, g3, _⟩ := loopPass_gain lib cfg tps appk lock inp r hpass
    rw [hev] at g1 g2 g3
    simp only at hl
    exact ⟨appk, lock, inp, r, hst, hl, hin, hpass, hev, g1, hl ▸ g1, g2, g3⟩

/-- Witness for C16: the sample run with a 30 s interval and a millisecond clock,
started at 0: the pass at 10 s does not call `recomputeGain`, the pass at 31 s
does, the pass at 40 s does not, the pass at 61 s does. -/
theorem gain_refresh_between_frames_witness :
    (0 : Int) ≤ 1000 ∧
    SVAppSimple.run sampleLib sampleCfg 1000 sampleApp 0 0 sampleRunInputs = some sampleRun ∧
    sampleRun.2.2.1.map (fun ev => ev.map AppEvent.name)
      = [["shouldClose", "capture", "stitch", "now", "render", "sleep"],
         ["shouldClose", "capture", "sleep"],
         ["shouldClose", "capture", "sleep"],
         ["shouldClose", "capture", "stitch", "now", "recomputeGain", "render", "sleep"],
         ["shouldClose", "capture", "stitch", "now", "render", "sleep"],
         ["shouldClose", "capture", "stitch", "now", "recomputeGain", "render", "sleep"]] ∧
    gainTimesAll sampleRun.2.2.1 = [31000, 61000] ∧
    (SVAppSimple.stateAt sampleLib sampleCfg 1000 sampleApp ⟨0, 0, 0⟩ sampleRunInputs 3).map
      (fun x => x.2.last_gain_update) = some 0 ∧
    (SVAppSimple.stateAt sampleLib sampleCfg 1000 sampleApp ⟨0, 0, 0⟩ sampleRunInputs 4).map
      (fun x => x.2.last_gain_update) = some 31000 ∧
    List.Pairwise (fun a b => b - a ≥ (sampleCfg.GAIN_UPDATE_INTERVAL : Int) * 1000)
      (0 :: gainTimesAll sampleRun.2.2.1) :=
  ⟨by decide, rfl, rfl, rfl, rfl, rfl,
    (gain_refresh_between_frames sampleLib sampleCfg 1000 sampleApp 0 0 sampleRunInputs
      sampleRun.1 sampleRun.2.1 sampleRun.2.2.1 sampleRun.2.2.2 (by decide) rfl).2⟩

/-- C17, the code at the failing input: `signalHandler` writes only `g_running`,
which neither the loop condition of `run` (`is_running && !renderer->shouldClose()`)
nor any other code reads. After `SIGINT` (signal 2) the sample application is
still running: the next two passes capture, stitch and render, and `main` has not
returned. In general the loop of a process that handles signals does what the
loop does without them. -/
theorem signal_handler_does_not_stop_the_loop :
    (signalHandler ⟨true, sampleApp⟩ 2).g_running = false ∧
    (signalHandler ⟨true, sampleApp⟩ 2).app.is_running = true ∧
    (main sampleLib sampleCfg 1000 true sampleApp 0 0
        [.signal 2, .pass (sampleGoodInput 10), .pass (sampleGoodInput 20)]).map
      (fun r => (r.1.g_running, r.2.1.map (fun ev => ev.map AppEvent.name), r.2.2))
      = some (false,
          [["shouldClose", "capture", "stitch", "now", "render", "sleep"],
           ["shouldClose", "capture", "stitch", "now", "render", "sleep"]],
          none) ∧
    (∀ (lib : Library) (cfg : SVConfig) (tps : Int) (inputs : List RunInput) (p : Process)
        (loc : RunLocals),
      (Process.loop lib cfg tps p loc inputs).map (fun x => (x.1.app, x.2))
        = SVAppSimple.loop lib cfg tps p.app loc (passesOf inputs)) :=
  ⟨rfl, rfl, rfl, process_loop_ignores_signals⟩

end Ethsimple
